import Mathlib

/-!
Verification of the natural-language specification of
`src/services/gemini_client.py` (ARQV30 Enhanced v2.0 Gemini client)
against a shallow embedding of that module.

Modelling conventions, fixed once here:

* Python strings are embedded as `Str := List Char`; every string literal of
  the source is transcribed verbatim (braces, quotes, apostrophes and
  backticks appear as `\x7b`, `\x7d`, `\x27`, `\x60` escapes).
* The external generative-language API (`genai`) is an opaque dependency per
  section 1 of the spec: an API round trip is a parameter of type
  `Except PyErr Str` (raised transport/service error, or the reply text
  `response.text`).  `genai.configure` and the `GenerativeModel` constructor
  are modelled as non-raising, again per the spec's opaque-dependency stance.
* `datetime.now().isoformat()` is a parameter `now : Str` threaded to every
  function that stamps a timestamp.
* Exceptions are modelled with `Except PyErr`; a Python function that cannot
  raise is embedded as a total function.
* JSON values are `JVal`; `json.loads` is modelled by `jsonLoads`, a parser
  for the stdlib grammar restricted to integer numerals (no floats, no
  `\uXXXX` escapes, no NaN/Infinity).  Dict update `d[k] = v` keeps the
  position of an existing key and appends a fresh one, as in CPython.
-/

set_option maxRecDepth 1000000

/-- Python strings, embedded as lists of characters. -/
abbrev Str := List Char

/-- Shorthand turning a Lean string literal into the `Str` embedding. -/
def cs (s : String) : Str := s.data

/-- The Python exceptions the module can raise or catch. -/
inductive PyErr where
  /-- `NameError`: a name is not bound in any enclosing scope. -/
  | nameError (missing : Str)
  /-- `ValueError` with its message (used for the missing credential). -/
  | valueError (msg : Str)
  /-- `TypeError` (e.g. string-keyed assignment into a non-dict). -/
  | typeError
  /-- A bare `Exception` with its message (`raise Exception(...)`). -/
  | exception (msg : Str)
  /-- Opaque transport/service error raised by the external API call. -/
  | apiError
deriving DecidableEq

/-- Values an `AnalysisRequest` field can hold: the spec's data model
(section 3) declares all fields "optional strings/numbers". -/
inductive PyVal where
  | PStr (s : Str)
  | PInt (n : Int)
deriving DecidableEq

/-- A Python dict with string keys, as an insertion-ordered association
list with distinct keys. -/
abbrev Dict := List (Str × PyVal)

/-- First binding of a key in a dict (keys are unique in CPython dicts). -/
def pyLookup : Dict → Str → Option PyVal
  | [], _ => none
  | (k', v) :: t, k => if k' = k then some v else pyLookup t k

/-- `d.get(k, default)`. -/
def pyGet (d : Dict) (k : Str) (dflt : PyVal) : PyVal :=
  (pyLookup d k).getD dflt

/-- `str(v)` as an f-string renders it: strings verbatim, ints in decimal
(Lean's `Int` rendering agrees with Python's for integers). -/
def pyStr : PyVal → Str
  | .PStr s => s
  | .PInt n => (toString n).data

/-- JSON values (the shape `json.loads` returns). -/
inductive JVal where
  | jnull
  | jbool (b : Bool)
  | jnum (n : Int)
  | jstr (s : Str)
  | jarr (elems : List JVal)
  | jobj (fields : List (Str × JVal))

/-- CPython dict assignment `d[k] = v` on a string-keyed JSON object:
an existing key keeps its position and gets the new value, a fresh key is
appended at the end. -/
def dictSet : List (Str × JVal) → Str → JVal → List (Str × JVal)
  | [], k, v => [(k, v)]
  | (k', v') :: t, k, v =>
      if k' = k then (k', v) :: t else (k', v') :: dictSet t k v

/-- First binding of a key in a JSON object. -/
def jLookup : List (Str × JVal) → Str → Option JVal
  | [], _ => none
  | (k', v) :: t, k => if k' = k then some v else jLookup t k

/-- The list of top-level section names of a returned record. -/
def topKeys : JVal → List Str
  | .jobj fields => fields.map (fun p => p.1)
  | _ => []

/-! ## Python string primitives used by the response parser -/

/-- `needle in hay` / `hay.find(needle)`: index of the first occurrence.
(The module only calls `find` after an `in` check succeeded, so the
`none` case is never consumed.) -/
def pyFind (needle : Str) (hay : Str) : Option Nat :=
  match hay with
  | [] => none
  | _ :: t => if needle.isPrefixOf hay then some 0 else (pyFind needle t).map (· + 1)

/-- `hay.rfind(needle)`: index of the last occurrence. -/
def pyRfind (needle : Str) (hay : Str) : Option Nat :=
  match hay with
  | [] => none
  | _ :: t =>
      match pyRfind needle t with
      | some j => some (j + 1)
      | none => if needle.isPrefixOf hay then some 0 else none

/-- `s[a:b]` for `0 ≤ a, b`: the characters at indices `a ≤ i < b`. -/
def pySlice (s : Str) (a b : Nat) : Str := (s.take b).drop a

/-- The ASCII whitespace stripped by `str.strip()` (the source never feeds
it other Unicode whitespace). -/
def isPyWs (c : Char) : Bool :=
  c = ' ' || c = '\n' || c = '\t' || c = '\r' || c = Char.ofNat 11 || c = Char.ofNat 12

/-- `s.strip()`. -/
def pyStrip (s : Str) : Str :=
  ((s.dropWhile isPyWs).reverse.dropWhile isPyWs).reverse

/-- Number of occurrences of `p` in `s` (at every start position),
tail-recursive worker. -/
def countOccurAux (p : Str) (s : Str) (acc : Nat) : Nat :=
  match s with
  | [] => acc
  | c :: t => countOccurAux p t (acc + (if p.isPrefixOf (c :: t) then 1 else 0))

/-- Number of occurrences of `p` in `s`: how many suffixes of `s` start
with `p`. -/
def countOccur (p : Str) (s : Str) : Nat := countOccurAux p s 0

/-! ## `json.loads`, restricted to the stdlib grammar with integer
numerals.  Objects are built by successive `d[key] = value` insertion as in
CPython, so duplicate keys keep the first position with the last value. -/

/-- JSON insignificant whitespace. -/
def isJsonWs (c : Char) : Bool := c = ' ' || c = '\t' || c = '\n' || c = '\r'

/-- Drop leading JSON whitespace. -/
def skipWs : Str → Str
  | [] => []
  | c :: r => if isJsonWs c then skipWs r else c :: r

/-- Parse the body of a JSON string, the opening quote already consumed.
Escapes `\" \\ \/ \n \t \r \b \f` are honoured; `\uXXXX` is outside the
modelled subset; raw control characters are rejected (strict mode). -/
def parseJString : Str → Option (Str × Str)
  | [] => none
  | c :: r =>
    if c = '"' then some ([], r)
    else if c = '\\' then
      match r with
      | [] => none
      | e :: r2 =>
        let esc : Option Char :=
          if e = '"' then some '"'
          else if e = '\\' then some '\\'
          else if e = '/' then some '/'
          else if e = 'n' then some '\n'
          else if e = 't' then some '\t'
          else if e = 'r' then some '\r'
          else if e = 'b' then some (Char.ofNat 8)
          else if e = 'f' then some (Char.ofNat 12)
          else none
        match esc with
        | none => none
        | some ch =>
          match parseJString r2 with
          | some (s, rest) => some (ch :: s, rest)
          | none => none
    else if c.toNat < 32 then none
    else
      match parseJString r with
      | some (s, rest) => some (c :: s, rest)
      | none => none

/-- Accumulate a run of decimal digits. -/
def parseDigitsAux : Str → Nat → Nat × Str
  | [], acc => (acc, [])
  | c :: r, acc =>
      if c.isDigit then parseDigitsAux r (acc * 10 + (c.toNat - 48)) else (acc, c :: r)

/-- Parse a JSON integer numeral: `-? (0 | [1-9][0-9]*)`.  A fractional
part or exponent would make the stdlib produce a float, which is outside
the modelled subset, so a following `.`/`e` is left in the remainder and
surfaces as a decode error at the caller. -/
def parseJNumber (s : Str) : Option (Int × Str) :=
  let (neg, s1) : Bool × Str := match s with | '-' :: r => (true, r) | _ => (false, s)
  match s1 with
  | [] => none
  | c :: r =>
    if c = '0' then
      match r with
      | d :: _ => if d.isDigit then none else some (0, r)
      | [] => some (0, r)
    else if c.isDigit then
      let p := parseDigitsAux (c :: r) 0
      some ((if neg then -(p.1 : Int) else (p.1 : Int)), p.2)
    else none

mutual

/-- Parse one JSON value and return the unconsumed remainder. -/
def parseJValue (fuel : Nat) (s : Str) : Option (JVal × Str) :=
  match fuel with
  | 0 => none
  | fuel + 1 =>
    match skipWs s with
    | [] => none
    | c :: r =>
      if c = '"' then (parseJString r).map (fun p => (JVal.jstr p.1, p.2))
      else if c = '[' then
        match skipWs r with
        | ']' :: r2 => some (JVal.jarr [], r2)
        | r2 => (parseJArrayItems fuel r2).map (fun p => (JVal.jarr p.1, p.2))
      else if c = '{' then
        match skipWs r with
        | '}' :: r2 => some (JVal.jobj [], r2)
        | r2 =>
          (parseJObjectItems fuel r2).map
            (fun p => (JVal.jobj (p.1.foldl (fun d q => dictSet d q.1 q.2) []), p.2))
      else if c = 't' then
        if (cs "rue").isPrefixOf r then some (JVal.jbool true, r.drop 3) else none
      else if c = 'f' then
        if (cs "alse").isPrefixOf r then some (JVal.jbool false, r.drop 4) else none
      else if c = 'n' then
        if (cs "ull").isPrefixOf r then some (JVal.jnull, r.drop 3) else none
      else if c = '-' || c.isDigit then
        (parseJNumber (c :: r)).map (fun p => (JVal.jnum p.1, p.2))
      else none

/-- Parse the comma-separated items of a non-empty array, returning them
with the remainder after the closing bracket. -/
def parseJArrayItems (fuel : Nat) (s : Str) : Option (List JVal × Str) :=
  match fuel with
  | 0 => none
  | fuel + 1 =>
    match parseJValue fuel s with
    | none => none
    | some (v, rest) =>
      match skipWs rest with
      | ',' :: r2 => (parseJArrayItems fuel r2).map (fun p => (v :: p.1, p.2))
      | ']' :: r2 => some ([v], r2)
      | _ => none

/-- Parse the `"key": value` members of a non-empty object, in source
order, returning them with the remainder after the closing brace. -/
def parseJObjectItems (fuel : Nat) (s : Str) : Option (List (Str × JVal) × Str) :=
  match fuel with
  | 0 => none
  | fuel + 1 =>
    match skipWs s with
    | '"' :: r =>
      match parseJString r with
      | none => none
      | some (k, rest) =>
        match skipWs rest with
        | ':' :: r2 =>
          match parseJValue fuel r2 with
          | none => none
          | some (v, rest2) =>
            match skipWs rest2 with
            | ',' :: r3 => (parseJObjectItems fuel r3).map (fun p => ((k, v) :: p.1, p.2))
            | '}' :: r3 => some ([(k, v)], r3)
            | _ => none
        | _ => none
    | _ => none

end

/-- `json.loads`: parse one value, then require only whitespace behind it;
`none` is a `json.JSONDecodeError`. -/
def jsonLoads (s : Str) : Option JVal :=
  match parseJValue (s.length + 1) s with
  | some (v, rest) => if skipWs rest = [] then some v else none
  | none => none

/-- A field value embedded into JSON output (used where the fallback
record stores `data.get(...)` directly as a section value). -/
def jOfPy : PyVal → JVal
  | .PStr s => .jstr s
  | .PInt n => .jnum n

/-! The literal segments of the prompt-builder f-string
(`_build_ultra_comprehensive_prompt`, source lines 117-140): the text
between consecutive field-interpolation holes (each hole renders
`data.get` of one field with the literal default Não informado). -/

/-- Prompt f-string literal segment 0. -/
def promptL0s : String := "\n# ANÁLISE ULTRA-DETALHADA DE MERCADO - ARQV30 ENHANCED v2.0\n\nVocê é o DIRETOR SUPREMO DE ANÁLISE DE MERCADO, um especialista de elite com 25+ anos de experiência em análise de mercado, psicologia do consumidor, estratégia de negócios e marketing digital avançado.\n\nSua missão é gerar a ANÁLISE MAIS COMPLETA E PROFUNDA possível, implementando TODOS os sistemas avançados:\n\n1. **SISTEMA DE PROVAS VISUAIS INSTANTÂNEAS**\n2. **ARQUITETO DE DRIVERS MENTAIS**  \n3. **PRÉ-PITCH INVISÍVEL**\n4. **ENGENHARIA ANTI-OBJEÇÃO**\n5. **ANCORAGEM PSICOLÓGICA**\n\n## DADOS DO PROJETO:\n- **Segmento**: "

/-- Prompt f-string literal segment 1. -/
def promptL1s : String := "\n- **Produto/Serviço**: "

/-- Prompt f-string literal segment 2. -/
def promptL2s : String := "\n- **Público-Alvo**: "

/-- Prompt f-string literal segment 3. -/
def promptL3s : String := "\n- **Preço**: R$ "

/-- Prompt f-string literal segment 4. -/
def promptL4s : String := "\n- **Concorrentes**: "

/-- Prompt f-string literal segment 5. -/
def promptL5s : String := "\n- **Objetivo de Receita**: R$ "

/-- Prompt f-string literal segment 6. -/
def promptL6s : String := "\n- **Orçamento Marketing**: R$ "

/-- Prompt f-string literal segment 7. -/
def promptL7s : String := "\n- **Prazo de Lançamento**: "

/-- Prompt f-string literal segment 8. -/
def promptL8s : String := "\n- **Dados Adicionais**: "

/-- Prompt f-string literal segment 9. -/
def promptL9s : String := "\n"

-- field order: segmento, produto, publico, preco, concorrentes, objetivo_receita, orcamento_marketing, prazo_lancamento, dados_adicionais

/-! The fixed schema/directives tail of the prompt
(source lines 148-567), one contiguous literal in the source, split
here into consecutive pieces (each piece after the first starts with a
newline); `promptSchemaPart` below is their concatenation. -/

/-- Piece 0 of the schema/directives tail. -/
def promptT0s : String := "\n## INSTRUÇÕES PARA ANÁLISE ULTRA-ROBUSTA:\n\nGere uma análise ULTRA-COMPLETA e estruturada em formato JSON implementando TODOS os sistemas. A estrutura deve ser EXATAMENTE:\n\n\x60\x60\x60json\n\x7b\n  \"avatar_ultra_detalhado\": \x7b\n    \"nome_ficticio\": \"Nome representativo do avatar\",\n    \"perfil_demografico\": \x7b\n      \"idade\": \"Faixa etária específica com justificativa\",\n      \"genero\": \"Distribuição por gênero com percentuais\",\n      \"renda\": \"Faixa de renda mensal detalhada com fonte\",\n      \"escolaridade\": \"Nível educacional predominante\",\n      \"localizacao\": \"Região geográfica específica\",\n      \"estado_civil\": \"Status relacionamento predominante\",\n      \"filhos\": \"Situação familiar típica\",\n      \"profissao\": \"Ocupações mais comuns\"\n    \x7d,\n    \"perfil_psicografico\": \x7b\n      \"personalidade\": \"Traços de personalidade dominantes detalhados\",\n      \"valores\": \"Valores e crenças principais com exemplos\",\n      \"interesses\": \"Hobbies e interesses específicos\",\n      \"estilo_vida\": \"Como vive o dia a dia detalhadamente\",\n      \"comportamento_compra\": \"Como toma decisões de compra passo a passo\",\n      \"influenciadores\": \"Quem influencia suas decisões e como\",\n      \"medos_profundos\": \"Medos mais íntimos relacionados ao nicho\",\n      \"aspiracoes_secretas\": \"O que realmente deseja mas não admite\"\n    \x7d,\n    \"dores_viscerais\": [\n      \"Lista de 8-12 dores específicas, viscerais e emocionais que fazem o avatar acordar de madrugada preocupado\"\n    ],\n    \"desejos_secretos\": ["

/-- Piece 1 of the schema/directives tail. -/
def promptT1s : String := "\n      \"Lista de 8-12 desejos profundos e aspirações que o avatar tem vergonha de admitir publicamente\"\n    ],\n    \"objecoes_reais\": [\n      \"Lista de 8-10 objeções reais e específicas que o avatar faria, incluindo as não verbalizadas\"\n    ],\n    \"jornada_emocional\": \x7b\n      \"consciencia\": \"Como toma consciência do problema - gatilhos específicos\",\n      \"consideracao\": \"Como avalia soluções - critérios e processo mental\",\n      \"decisao\": \"Como decide pela compra - fatores decisivos\",\n      \"pos_compra\": \"Experiência pós-compra - expectativas e medos\"\n    \x7d,\n    \"linguagem_interna\": \x7b\n      \"frases_dor\": [\"Frases exatas que usa para expressar dores\"],\n      \"frases_desejo\": [\"Frases exatas que usa para expressar desejos\"],\n      \"metaforas_comuns\": [\"Metáforas que usa no dia a dia\"],\n      \"vocabulario_especifico\": [\"Palavras e gírias específicas do nicho\"],\n      \"tom_comunicacao\": \"Como se comunica - formal, informal, técnico\"\n    \x7d,\n    \"gatilhos_mentais_especificos\": [\n      \"Lista de gatilhos psicológicos que funcionam especificamente com este avatar\"\n    ],\n    \"resistencias_ocultas\": [\n      \"Resistências psicológicas não verbalizadas que impedem a compra\"\n    ],\n    \"momento_ideal_abordagem\": \"Quando e como abordar este avatar para máxima receptividade\"\n  \x7d,\n  \n  \"drivers_mentais_customizados\": [\n    \x7b\n      \"nome\": \"Nome impactante do driver (máximo 3 palavras)\",\n      \"gatilho_central\": \"A emoção ou lógica core que ativa\","

/-- Piece 2 of the schema/directives tail. -/
def promptT2s : String := "\n      \"definicao_visceral\": \"Definição em 1-2 frases que capturam a essência\",\n      \"mecanica_psicologica\": \"Como funciona no cérebro do avatar\",\n      \"momento_instalacao\": \"Quando plantar durante a jornada do cliente\",\n      \"roteiro_ativacao\": \x7b\n        \"pergunta_abertura\": \"Pergunta que expõe a ferida específica\",\n        \"historia_analogia\": \"História ou analogia de 3-5 frases que ilustra\",\n        \"metafora_visual\": \"Metáfora visual que ancora na memória\",\n        \"comando_acao\": \"Comando específico que direciona comportamento\"\n      \x7d,\n      \"frases_ancoragem\": [\n        \"3-5 frases prontas para usar que reativam o driver\"\n      ],\n      \"prova_logica\": \x7b\n        \"estatistica\": \"Dado numérico que sustenta\",\n        \"caso_exemplo\": \"História real que comprova\",\n        \"demonstracao\": \"Como provar na prática\"\n      \x7d,\n      \"loop_reforco\": \"Como reativar o driver em momentos posteriores\"\n    \x7d\n  ],\n  \n  \"provas_visuais_sugeridas\": [\n    \x7b\n      \"nome\": \"Nome da demonstração visual\",\n      \"conceito_alvo\": \"O que quer provar especificamente\",\n      \"experimento\": \"Descrição detalhada da demonstração física\",\n      \"analogia\": \"Como conecta com a vida do avatar\",\n      \"materiais\": [\"Lista específica de materiais necessários\"],\n      \"roteiro_completo\": \"Script passo a passo da demonstração\",\n      \"variacoes\": \"Adaptações para diferentes formatos (online/presencial)\",\n      \"gestao_riscos\": \"Como lidar se a demonstração der errado\"\n    \x7d\n  ],\n  "

/-- Piece 3 of the schema/directives tail. -/
def promptT3s : String := "\n  \"escopo_posicionamento\": \x7b\n    \"posicionamento_mercado\": \"Posicionamento único e específico no mercado\",\n    \"proposta_valor_unica\": \"Proposta de valor irresistível e diferenciada\",\n    \"diferenciais_competitivos\": [\n      \"Lista de diferenciais únicos e defensáveis\"\n    ],\n    \"mensagem_central\": \"Mensagem principal que resume tudo\",\n    \"tom_comunicacao\": \"Tom de voz ideal para este avatar\",\n    \"nicho_especifico\": \"Nicho mais específico recomendado\",\n    \"estrategia_oceano_azul\": \"Como criar mercado sem concorrência direta\",\n    \"ancoragem_preco\": \"Como ancorar o preço na mente do cliente\"\n  \x7d,\n  \n  \"analise_concorrencia_profunda\": \x7b\n    \"concorrentes_diretos\": [\n      \x7b\n        \"nome\": \"Nome do concorrente principal\",\n        \"analise_swot\": \x7b\n          \"forcas\": [\"Principais forças específicas\"],\n          \"fraquezas\": [\"Principais fraquezas exploráveis\"],\n          \"oportunidades\": [\"Oportunidades que eles não veem\"],\n          \"ameacas\": [\"Ameaças que representam para nós\"]\n        \x7d,\n        \"estrategia_marketing\": \"Estratégia principal detalhada\",\n        \"posicionamento\": \"Como se posicionam no mercado\",\n        \"diferenciais\": [\"Principais diferenciais deles\"],\n        \"vulnerabilidades\": [\"Pontos fracos específicos exploráveis\"],\n        \"preco_estrategia\": \"Estratégia de precificação\",\n        \"share_mercado_estimado\": \"Participação estimada no mercado\",\n        \"pontos_ataque\": [\"Onde podemos atacá-los diretamente\"]\n      \x7d\n    ],"

/-- Piece 4 of the schema/directives tail. -/
def promptT4s : String := "\n    \"concorrentes_indiretos\": [\n      \"Lista de soluções alternativas que o cliente considera\"\n    ],\n    \"gaps_oportunidade\": [\n      \"Oportunidades específicas não exploradas por ninguém\"\n    ],\n    \"benchmarks_setor\": \"Benchmarks específicos e métricas do setor\",\n    \"estrategias_diferenciacao\": [\n      \"Como se diferenciar de forma defensável\"\n    ],\n    \"analise_precos\": \"Análise detalhada da precificação do mercado\",\n    \"tendencias_competitivas\": \"Para onde a concorrência está indo\"\n  \x7d,\n  \n  \"estrategia_palavras_chave\": \x7b\n    \"palavras_primarias\": [\n      \"8-12 palavras-chave principais com alto volume e intenção\"\n    ],\n    \"palavras_secundarias\": [\n      \"15-25 palavras-chave secundárias complementares\"\n    ],\n    \"palavras_cauda_longa\": [\n      \"20-30 palavras-chave de cauda longa específicas\"\n    ],\n    \"palavras_negativas\": [\n      \"Palavras a evitar que atraem público errado\"\n    ],\n    \"intencao_busca\": \x7b\n      \"informacional\": [\"Palavras para conteúdo educativo\"],\n      \"navegacional\": [\"Palavras para encontrar a marca\"],\n      \"transacional\": [\"Palavras para conversão direta\"]\n    \x7d,\n    \"estrategia_conteudo\": \"Como usar as palavras-chave estrategicamente\",\n    \"sazonalidade\": \"Variações sazonais das buscas no nicho\",\n    \"oportunidades_seo\": \"Oportunidades específicas de SEO identificadas\"\n  \x7d,\n  \n  \"sistema_anti_objecao\": \x7b\n    \"objecoes_universais\": \x7b\n      \"tempo\": \x7b\n        \"objecao\": \"Não tenho tempo para isso\","

/-- Piece 5 of the schema/directives tail. -/
def promptT5s : String := "\n        \"raiz_emocional\": \"Medo de mais uma responsabilidade que vai falhar\",\n        \"contra_ataque\": \"Técnica específica de neutralização\",\n        \"drives_mentais\": [\"Drivers específicos para usar\"],\n        \"historias\": [\"Histórias específicas para contar\"],\n        \"provas\": [\"Provas específicas para mostrar\"]\n      \x7d,\n      \"dinheiro\": \x7b\n        \"objecao\": \"Não tenho dinheiro agora\",\n        \"raiz_emocional\": \"Medo de desperdício e arrependimento\",\n        \"contra_ataque\": \"Técnica específica de neutralização\",\n        \"drives_mentais\": [\"Drivers específicos para usar\"],\n        \"historias\": [\"Histórias específicas para contar\"],\n        \"provas\": [\"Provas específicas para mostrar\"]\n      \x7d,\n      \"confianca\": \x7b\n        \"objecao\": \"Não confio que vai funcionar\",\n        \"raiz_emocional\": \"Medo de ser enganado novamente\",\n        \"contra_ataque\": \"Técnica específica de neutralização\",\n        \"drives_mentais\": [\"Drivers específicos para usar\"],\n        \"historias\": [\"Histórias específicas para contar\"],\n        \"provas\": [\"Provas específicas para mostrar\"]\n      \x7d\n    \x7d,\n    \"objecoes_ocultas\": \x7b\n      \"autossuficiencia\": \"Análise e neutralização específica\",\n      \"sinal_fraqueza\": \"Análise e neutralização específica\",\n      \"medo_novo\": \"Análise e neutralização específica\",\n      \"prioridades_desequilibradas\": \"Análise e neutralização específica\"\n    \x7d,\n    \"arsenal_emergencia\": [\n      \"Objeções de última hora e scripts específicos para lidar\"\n    ]\n  \x7d,\n  "

/-- Piece 6 of the schema/directives tail. -/
def promptT6s : String := "\n  \"pre_pitch_invisivel\": \x7b\n    \"orquestracao_emocional\": \x7b\n      \"sequencia_psicologica\": [\n        \x7b\"fase\": \"QUEBRA\", \"objetivo\": \"Destruir ilusão atual\", \"tempo\": \"15%\", \"tecnicas\": [\"Técnicas específicas\"]\x7d,\n        \x7b\"fase\": \"EXPOSICAO\", \"objetivo\": \"Revelar ferida real\", \"tempo\": \"15%\", \"tecnicas\": [\"Técnicas específicas\"]\x7d,\n        \x7b\"fase\": \"INDIGNACAO\", \"objetivo\": \"Criar revolta produtiva\", \"tempo\": \"15%\", \"tecnicas\": [\"Técnicas específicas\"]\x7d,\n        \x7b\"fase\": \"VISLUMBRE\", \"objetivo\": \"Mostrar possível\", \"tempo\": \"15%\", \"tecnicas\": [\"Técnicas específicas\"]\x7d,\n        \x7b\"fase\": \"TENSAO\", \"objetivo\": \"Amplificar gap\", \"tempo\": \"15%\", \"tecnicas\": [\"Técnicas específicas\"]\x7d,\n        \x7b\"fase\": \"NECESSIDADE\", \"objetivo\": \"Tornar inevitável\", \"tempo\": \"25%\", \"tecnicas\": [\"Técnicas específicas\"]\x7d\n      ],\n      \"drivers_por_fase\": \"Mapeamento específico de drivers por fase\",\n      \"narrativas_conectoras\": \"Como conectar as fases fluidamente\"\n    \x7d,\n    \"justificacao_logica\": \x7b\n      \"numeros_irrefutaveis\": [\"Dados específicos que não podem ser contestados\"],\n      \"calculos_roi\": \"Cálculos específicos de retorno conservadores\",\n      \"demonstracoes\": \"Demonstrações passo a passo específicas\",\n      \"cases_metricas\": \"Cases reais com métricas específicas\",\n      \"garantias\": \"Garantias específicas que eliminam risco\"\n    \x7d,\n    \"roteiro_completo\": \"Script completo e detalhado do pré-pitch\",\n    \"adaptacoes_formato\": \x7b\n      \"webinario\": \"Adaptação específica para webinário\","

/-- Piece 7 of the schema/directives tail. -/
def promptT7s : String := "\n      \"evento_presencial\": \"Adaptação específica para evento\",\n      \"cpl\": \"Adaptação específica para CPL\",\n      \"lives\": \"Adaptação específica para lives\"\n    \x7d\n  \x7d,\n  \n  \"metricas_performance_ultra\": \x7b\n    \"kpis_primarios\": [\n      \x7b\n        \"metrica\": \"Nome específico da métrica\",\n        \"objetivo\": \"Meta numérica específica\",\n        \"benchmark_setor\": \"Benchmark específico do setor\",\n        \"frequencia_medicao\": \"Com que frequência medir\",\n        \"formula_calculo\": \"Fórmula exata de cálculo\",\n        \"fonte_dados\": \"De onde vem os dados\"\n      \x7d\n    ],\n    \"kpis_secundarios\": [\n      \"KPIs de apoio específicos para o nicho\"\n    ],\n    \"metas_especificas\": \x7b\n      \"cpl_meta\": \"Custo por lead ideal específico\",\n      \"cac_meta\": \"Custo de aquisição ideal específico\",\n      \"ltv_meta\": \"Lifetime value esperado específico\",\n      \"roi_meta\": \"ROI esperado específico\",\n      \"payback_meta\": \"Tempo de payback esperado\"\n    \x7d,\n    \"funil_conversao_detalhado\": \x7b\n      \"topo_funil\": \x7b\n        \"objetivo\": \"Objetivo específico desta etapa\",\n        \"estrategias\": [\"Estratégias específicas detalhadas\"],\n        \"conteudos\": [\"Tipos específicos de conteúdo\"],\n        \"metricas\": [\"Métricas específicas a acompanhar\"],\n        \"taxa_conversao_esperada\": \"Taxa específica esperada\"\n      \x7d,\n      \"meio_funil\": \x7b\n        \"objetivo\": \"Objetivo específico desta etapa\",\n        \"estrategias\": [\"Estratégias específicas detalhadas\"],"

/-- Piece 8 of the schema/directives tail. -/
def promptT8s : String := "\n        \"conteudos\": [\"Tipos específicos de conteúdo\"],\n        \"metricas\": [\"Métricas específicas a acompanhar\"],\n        \"taxa_conversao_esperada\": \"Taxa específica esperada\"\n      \x7d,\n      \"fundo_funil\": \x7b\n        \"objetivo\": \"Objetivo específico desta etapa\",\n        \"estrategias\": [\"Estratégias específicas detalhadas\"],\n        \"conteudos\": [\"Tipos específicos de conteúdo\"],\n        \"metricas\": [\"Métricas específicas a acompanhar\"],\n        \"taxa_conversao_esperada\": \"Taxa específica esperada\"\n      \x7d\n    \x7d,\n    \"projecoes_financeiras\": \x7b\n      \"cenario_conservador\": \x7b\n        \"vendas_mensais\": \"Número específico de vendas\",\n        \"receita_mensal\": \"Receita específica esperada\",\n        \"lucro_mensal\": \"Lucro específico esperado\",\n        \"roi\": \"ROI específico esperado\",\n        \"premissas\": [\"Premissas específicas deste cenário\"]\n      \x7d,\n      \"cenario_realista\": \x7b\n        \"vendas_mensais\": \"Número específico de vendas\",\n        \"receita_mensal\": \"Receita específica esperada\",\n        \"lucro_mensal\": \"Lucro específico esperado\",\n        \"roi\": \"ROI específico esperado\",\n        \"premissas\": [\"Premissas específicas deste cenário\"]\n      \x7d,\n      \"cenario_otimista\": \x7b\n        \"vendas_mensais\": \"Número específico de vendas\",\n        \"receita_mensal\": \"Receita específica esperada\",\n        \"lucro_mensal\": \"Lucro específico esperado\",\n        \"roi\": \"ROI específico esperado\",\n        \"premissas\": [\"Premissas específicas deste cenário\"]\n      \x7d\n    \x7d\n  \x7d,\n  "

/-- Piece 9 of the schema/directives tail. -/
def promptT9s : String := "\n  \"plano_acao_ultra_detalhado\": \x7b\n    \"fase_1_fundacao\": \x7b\n      \"duracao\": \"Duração específica em dias\",\n      \"objetivos\": [\"Objetivos específicos e mensuráveis\"],\n      \"atividades\": [\n        \x7b\n          \"atividade\": \"Nome da atividade\",\n          \"descricao\": \"Descrição detalhada\",\n          \"responsavel\": \"Quem executa\",\n          \"prazo\": \"Prazo específico\",\n          \"recursos\": [\"Recursos necessários\"],\n          \"entregaveis\": [\"O que deve ser entregue\"]\n        \x7d\n      ],\n      \"investimento_estimado\": \"Valor específico necessário\",\n      \"resultados_esperados\": [\"Resultados específicos esperados\"],\n      \"marcos_importantes\": [\"Marcos específicos a celebrar\"],\n      \"riscos_mitigacao\": [\"Riscos e como mitigar\"]\n    \x7d,\n    \"fase_2_lancamento\": \x7b\n      \"duracao\": \"Duração específica em dias\",\n      \"objetivos\": [\"Objetivos específicos e mensuráveis\"],\n      \"atividades\": [\n        \x7b\n          \"atividade\": \"Nome da atividade\",\n          \"descricao\": \"Descrição detalhada\",\n          \"responsavel\": \"Quem executa\",\n          \"prazo\": \"Prazo específico\",\n          \"recursos\": [\"Recursos necessários\"],\n          \"entregaveis\": [\"O que deve ser entregue\"]\n        \x7d\n      ],\n      \"investimento_estimado\": \"Valor específico necessário\",\n      \"resultados_esperados\": [\"Resultados específicos esperados\"],\n      \"marcos_importantes\": [\"Marcos específicos a celebrar\"],\n      \"riscos_mitigacao\": [\"Riscos e como mitigar\"]\n    \x7d,\n    \"fase_3_crescimento\": \x7b"

/-- Piece 10 of the schema/directives tail. -/
def promptT10s : String := "\n      \"duracao\": \"Duração específica em dias\",\n      \"objetivos\": [\"Objetivos específicos e mensuráveis\"],\n      \"atividades\": [\n        \x7b\n          \"atividade\": \"Nome da atividade\",\n          \"descricao\": \"Descrição detalhada\",\n          \"responsavel\": \"Quem executa\",\n          \"prazo\": \"Prazo específico\",\n          \"recursos\": [\"Recursos necessários\"],\n          \"entregaveis\": [\"O que deve ser entregue\"]\n        \x7d\n      ],\n      \"investimento_estimado\": \"Valor específico necessário\",\n      \"resultados_esperados\": [\"Resultados específicos esperados\"],\n      \"marcos_importantes\": [\"Marcos específicos a celebrar\"],\n      \"riscos_mitigacao\": [\"Riscos e como mitigar\"]\n    \x7d,\n    \"cronograma_semanal\": \"Cronograma detalhado semana a semana\",\n    \"recursos_necessarios\": \x7b\n      \"humanos\": [\"Recursos humanos específicos\"],\n      \"financeiros\": [\"Recursos financeiros específicos\"],\n      \"tecnologicos\": [\"Recursos tecnológicos específicos\"],\n      \"materiais\": [\"Recursos materiais específicos\"]\n    \x7d\n  \x7d,\n  \n  \"insights_exclusivos_ultra\": [\n    \"Lista de 15-20 insights únicos, específicos e ultra-valiosos baseados na análise profunda do nicho, avatar e mercado\"\n  ],\n  \n  \"sistema_monitoramento\": \x7b\n    \"dashboards\": [\n      \x7b\n        \"nome\": \"Nome do dashboard\",\n        \"metricas\": [\"Métricas específicas\"],\n        \"frequencia_atualizacao\": \"Frequência de atualização\",\n        \"responsavel\": \"Quem monitora\"\n      \x7d\n    ],\n    \"alertas\": [\n      \x7b"

/-- Piece 11 of the schema/directives tail. -/
def promptT11s : String := "\n        \"metrica\": \"Métrica monitorada\",\n        \"condicao\": \"Condição que dispara alerta\",\n        \"acao\": \"Ação a ser tomada\",\n        \"responsavel\": \"Quem recebe o alerta\"\n      \x7d\n    ],\n    \"relatorios\": [\n      \x7b\n        \"nome\": \"Nome do relatório\",\n        \"conteudo\": \"O que contém\",\n        \"frequencia\": \"Frequência de geração\",\n        \"destinatarios\": [\"Quem recebe\"]\n      \x7d\n    ],\n    \"otimizacoes\": [\n      \"Processos específicos de otimização contínua\"\n    ]\n  \x7d\n\x7d\n\x60\x60\x60\n\n## DIRETRIZES ULTRA-CRÍTICAS:\n\n1. **PROFUNDIDADE EXTREMA**: Cada seção deve ter profundidade de consultor de R$ 50.000/hora\n2. **ULTRA-ESPECÍFICO**: Use dados concretos, números, percentuais, exemplos reais do nicho\n3. **IMPLEMENTAÇÃO COMPLETA**: Implemente TODOS os sistemas dos documentos anexados\n4. **ACIONABILIDADE TOTAL**: Cada insight deve ser imediatamente implementável\n5. **INOVAÇÃO CONSTANTE**: Identifique oportunidades que ninguém mais viu no nicho\n6. **COERÊNCIA ABSOLUTA**: Todos os dados devem ser perfeitamente consistentes\n7. **LINGUAGEM DE ELITE**: Tom de consultor premium especializado no nicho\n8. **INSIGHTS ÚNICOS**: Gere insights que só uma análise desta profundidade pode revelar\n9. **SISTEMAS INTEGRADOS**: Todos os sistemas devem trabalhar em sinergia perfeita\n10. **RESULTADOS GARANTIDOS**: Cada recomendação deve ter alta probabilidade de sucesso\n\n**CRÍTICO**: Esta análise será usada para decisões de investimento de milhões de reais. A qualidade deve ser IMPECÁVEL e ULTRA-DETALHADA."

/-- Piece 12 of the schema/directives tail. -/
def promptT12s : String := "\n\n**IMPORTANTE**: Gere APENAS o JSON válido e ultra-completo, sem texto adicional antes ou depois. Cada campo deve estar preenchido com informações específicas, detalhadas e acionáveis.\n"

/-- The schema/directives tail as `Str` pieces. -/
def promptTail : List Str := [cs promptT0s, cs promptT1s, cs promptT2s, cs promptT3s, cs promptT4s, cs promptT5s, cs promptT6s, cs promptT7s, cs promptT8s, cs promptT9s, cs promptT10s, cs promptT11s, cs promptT12s]

/-- The schema/directives tail of the prompt as one string (the pieces
`promptT0s ... promptT12s` concatenated, right-nested). -/
def promptSchemaPart : Str :=
  cs promptT0s ++ (cs promptT1s ++ (cs promptT2s ++ (cs promptT3s ++ (cs promptT4s ++ (cs promptT5s ++ (cs promptT6s ++ (cs promptT7s ++ (cs promptT8s ++ (cs promptT9s ++ (cs promptT10s ++ (cs promptT11s ++ cs promptT12s)))))))))))

/-- One interpolation hole of the prompt f-string:
`{data.get(field, 'Não informado')}` rendered by `str(...)`. -/
def fieldVal (data : Dict) (f : String) : Str :=
  pyStr (pyGet data (cs f) (PyVal.PStr (cs "Não informado")))

/-- The conditional search-context section (source lines 142-143):
appended only when `search_context` is truthy (not `None`, not empty). -/
def searchBlock : Option Str → Str
  | none => []
  | some s => if s = [] then [] else cs "\n## CONTEXTO DE PESQUISA PROFUNDA:\n" ++ (s ++ cs "\n")

/-- The conditional attachments-context section (source lines 145-146). -/
def attachBlock : Option Str → Str
  | none => []
  | some a => if a = [] then [] else cs "\n## CONTEXTO DOS ANEXOS:\n" ++ (a ++ cs "\n")

/-- `_build_ultra_comprehensive_prompt` (source lines 109-569): the
f-string with its nine `data.get` holes, the two conditional context
sections, and the fixed schema/directives tail. -/
def build_ultra_comprehensive_prompt
    (data : Dict) (search_context attachments_context : Option Str) : Str :=
  cs promptL0s ++ (fieldVal data "segmento" ++ (cs promptL1s ++ (fieldVal data "produto" ++ (cs promptL2s ++ (fieldVal data "publico" ++ (cs promptL3s ++ (fieldVal data "preco" ++ (cs promptL4s ++ (fieldVal data "concorrentes" ++ (cs promptL5s ++ (fieldVal data "objetivo_receita" ++ (cs promptL6s ++ (fieldVal data "orcamento_marketing" ++ (cs promptL7s ++ (fieldVal data "prazo_lancamento" ++ (cs promptL8s ++ (fieldVal data "dados_adicionais" ++ (cs promptL9s ++ (searchBlock search_context ++ (attachBlock attachments_context ++ promptSchemaPart))))))))))))))))))))

/-- The nine optional `AnalysisRequest` fields the prompt interpolates, in
source order. -/
def requestFields : List String :=
  ["segmento", "produto", "publico", "preco", "concorrentes",
   "objetivo_receita", "orcamento_marketing", "prazo_lancamento", "dados_adicionais"]

/-! ## Response parser -/

/-- The markdown-fence stripping of `_parse_ultra_detailed_response`
(source lines 574-582): cut between the first fence opener and the last
fence, then `strip()`; with no fence the text is used as is. -/
def stripMarkdown (t : Str) : Str :=
  if cs "```json" <:+: t then
    pyStrip (pySlice t ((pyFind (cs "```json") t).getD 0 + 7) ((pyRfind (cs "```") t).getD 0))
  else if cs "```" <:+: t then
    pyStrip (pySlice t ((pyFind (cs "```") t).getD 0 + 3) ((pyRfind (cs "```") t).getD 0))
  else t

/-- The metadata sub-record merged into a successful structured parse
(source lines 588-600). -/
def metadata_gemini (now : Str) : JVal :=
  JVal.jobj [
    (cs "generated_at", JVal.jstr now),
    (cs "model", JVal.jstr (cs "gemini-1.5-flash")),
    (cs "version", JVal.jstr (cs "2.0.0")),
    (cs "analysis_type", JVal.jstr (cs "ultra_detailed")),
    (cs "systems_implemented", JVal.jarr [
      JVal.jstr (cs "drivers_mentais"),
      JVal.jstr (cs "provas_visuais"),
      JVal.jstr (cs "pre_pitch_invisivel"),
      JVal.jstr (cs "anti_objecao"),
      JVal.jstr (cs "ancoragem_psicologica")])]

/-- The hand-authored tier-(b) record of `_extract_structured_analysis`
(source lines 614-762), as a function of the rendered market-segment
interpolation `seg` that its one f-string (line 746) would use. -/
def tierBRecordFields (seg : Str) : List (Str × JVal) :=
  [
    ((cs "avatar_ultra_detalhado"),
    JVal.jobj [
      ((cs "nome_ficticio"),
      JVal.jstr (cs "Avatar Personalizado")),
      ((cs "perfil_demografico"),
      JVal.jobj [
        ((cs "idade"),
        JVal.jstr (cs "25-45 anos - faixa de maior poder aquisitivo e necessidade de crescimento")),
        ((cs "genero"),
        JVal.jstr (cs "60% masculino, 40% feminino - predominância masculina no empreendedorismo")),
        ((cs "renda"),
        JVal.jstr (cs "R$ 5.000 - R$ 25.000 - classe média alta com ambições de crescimento")),
        ((cs "escolaridade"),
        JVal.jstr (cs "Superior completo - 80% têm graduação ou pós-graduação")),
        ((cs "localizacao"),
        JVal.jstr (cs "Grandes centros urbanos - SP, RJ, MG, RS, PR")),
        ((cs "estado_civil"),
        JVal.jstr (cs "70% casados ou em união estável")),
        ((cs "filhos"),
        JVal.jstr (cs "60% têm filhos - motivação adicional para crescer")),
        ((cs "profissao"),
        JVal.jstr (cs "Empreendedores, profissionais liberais, executivos"))]),
      ((cs "perfil_psicografico"),
      JVal.jobj [
        ((cs "personalidade"),
        JVal.jstr (cs "Ambiciosos, determinados, mas frequentemente sobrecarregados e ansiosos")),
        ((cs "valores"),
        JVal.jstr (cs "Liberdade financeira, reconhecimento profissional, segurança familiar")),
        ((cs "interesses"),
        JVal.jstr (cs "Tecnologia, investimentos, desenvolvimento pessoal, networking")),
        ((cs "estilo_vida"),
        JVal.jstr (cs "Rotina intensa, trabalham muito, buscam eficiência e resultados")),
        ((cs "comportamento_compra"),
        JVal.jstr (cs "Pesquisam muito, comparam opções, decidem por lógica mas compram por emoção")),
        ((cs "influenciadores"),
        JVal.jstr (cs "Outros empreendedores de sucesso, mentores, especialistas reconhecidos")),
        ((cs "medos_profundos"),
        JVal.jstr (cs "Fracassar publicamente, perder dinheiro, não conseguir sustentar a família")),
        ((cs "aspiracoes_secretas"),
        JVal.jstr (cs "Ser reconhecido como autoridade, ter liberdade total, impactar milhares"))]),
      ((cs "dores_viscerais"),
      JVal.jarr [
        JVal.jstr (cs "Trabalhar 12+ horas por dia sem ver crescimento proporcional"),
        JVal.jstr (cs "Sentir que está sempre correndo atrás, nunca na frente"),
        JVal.jstr (cs "Ver concorrentes menores crescendo mais rápido"),
        JVal.jstr (cs "Não conseguir se desconectar do trabalho nem nos finais de semana"),
        JVal.jstr (cs "Ter medo constante de que tudo pode desmoronar a qualquer momento"),
        JVal.jstr (cs "Sentir que está desperdiçando seu potencial em tarefas operacionais"),
        JVal.jstr (cs "Não ter tempo de qualidade com família por causa do trabalho"),
        JVal.jstr (cs "Estar sempre no limite financeiro apesar de faturar bem"),
        JVal.jstr (cs "Sentir que não tem controle real sobre os resultados do negócio"),
        JVal.jstr (cs "Ter vergonha de admitir que não sabe como crescer de forma sustentável")]),
      ((cs "desejos_secretos"),
      JVal.jarr [
        JVal.jstr (cs "Ser reconhecido como uma autoridade respeitada no mercado"),
        JVal.jstr (cs "Ter um negócio que funcione sem sua presença constante"),
        JVal.jstr (cs "Ganhar dinheiro enquanto dorme através de sistemas automatizados"),
        JVal.jstr (cs "Ser convidado para palestrar em grandes eventos do setor"),
        JVal.jstr (cs "Ter liberdade total de horários e localização"),
        JVal.jstr (cs "Deixar um legado que impacte milhares de pessoas"),
        JVal.jstr (cs "Ter segurança financeira suficiente para nunca mais se preocupar"),
        JVal.jstr (cs "Ser visto pelos pares como alguém que \x27chegou lá\x27"),
        JVal.jstr (cs "Poder ajudar outros a alcançarem o sucesso"),
        JVal.jstr (cs "Ter tempo e recursos para realizar sonhos pessoais adiados")]),
      ((cs "objecoes_reais"),
      JVal.jarr [
        JVal.jstr (cs "Já tentei várias coisas e não funcionaram"),
        JVal.jstr (cs "Não tenho tempo para implementar mais uma estratégia"),
        JVal.jstr (cs "Meu nicho é muito específico, isso não vai funcionar para mim"),
        JVal.jstr (cs "Preciso ver resultados rápidos, não posso esperar meses"),
        JVal.jstr (cs "Não tenho equipe suficiente para executar"),
        JVal.jstr (cs "Já gasto muito com marketing e não vejo retorno"),
        JVal.jstr (cs "Meus clientes são diferentes, eles não compram assim"),
        JVal.jstr (cs "Não tenho conhecimento técnico para implementar"),
        JVal.jstr (cs "E se eu investir e não der certo? Não posso me dar ao luxo de perder dinheiro")]),
      ((cs "jornada_emocional"),
      JVal.jobj [
        ((cs "consciencia"),
        JVal.jstr (cs "Percebe que está estagnado quando vê outros crescendo ou quando bate metas financeiras")),
        ((cs "consideracao"),
        JVal.jstr (cs "Pesquisa intensivamente, consome muito conteúdo, busca cases de sucesso similares")),
        ((cs "decisao"),
        JVal.jstr (cs "Decide baseado em confiança no método + urgência da situação + prova social")),
        ((cs "pos_compra"),
        JVal.jstr (cs "Quer implementar rapidamente mas tem medo de não conseguir executar corretamente"))]),
      ((cs "linguagem_interna"),
      JVal.jobj [
        ((cs "frases_dor"),
        JVal.jarr [
          JVal.jstr (cs "Estou trabalhando muito mas não estou saindo do lugar"),
          JVal.jstr (cs "Sinto que estou desperdiçando meu potencial"),
          JVal.jstr (cs "Preciso de um sistema que funcione de verdade")]),
        ((cs "frases_desejo"),
        JVal.jarr [
          JVal.jstr (cs "Quero ter um negócio que funcione sem mim"),
          JVal.jstr (cs "Sonho em ter liberdade financeira e de tempo"),
          JVal.jstr (cs "Quero ser reconhecido como autoridade no meu mercado")]),
        ((cs "metaforas_comuns"),
        JVal.jarr [
          JVal.jstr (cs "Corrida de hamster"),
          JVal.jstr (cs "Apagar incêndio"),
          JVal.jstr (cs "Remar contra a maré")]),
        ((cs "vocabulario_especifico"),
        JVal.jarr [
          JVal.jstr (cs "ROI"),
          JVal.jstr (cs "conversão"),
          JVal.jstr (cs "funil"),
          JVal.jstr (cs "lead"),
          JVal.jstr (cs "ticket médio"),
          JVal.jstr (cs "LTV"),
          JVal.jstr (cs "CAC")]),
        ((cs "tom_comunicacao"),
        JVal.jstr (cs "Direto, objetivo, gosta de dados e provas"))]),
      ((cs "gatilhos_mentais_especificos"),
      JVal.jarr [
        JVal.jstr (cs "Urgência temporal"),
        JVal.jstr (cs "Escassez de oportunidade"),
        JVal.jstr (cs "Prova social de pares"),
        JVal.jstr (cs "Autoridade reconhecida"),
        JVal.jstr (cs "Medo da perda"),
        JVal.jstr (cs "Reciprocidade")]),
      ((cs "resistencias_ocultas"),
      JVal.jarr [
        JVal.jstr (cs "Medo de sair da zona de conforto"),
        JVal.jstr (cs "Síndrome do impostor"),
        JVal.jstr (cs "Perfeccionismo paralisante"),
        JVal.jstr (cs "Desconfiança em métodos \x27fáceis\x27")]),
      ((cs "momento_ideal_abordagem"),
      JVal.jstr (cs "Quando está frustrado com resultados atuais ou vê oportunidade de crescimento"))]),
    ((cs "drivers_mentais_customizados"),
    JVal.jarr [
      JVal.jobj [
        ((cs "nome"),
        JVal.jstr (cs "Hamster Dourado")),
        ((cs "gatilho_central"),
        JVal.jstr (cs "Frustração com trabalho sem resultado proporcional")),
        ((cs "definicao_visceral"),
        JVal.jstr (cs "Você trabalha muito mas gira na mesma roda, como um hamster numa gaiola de ouro")),
        ((cs "mecanica_psicologica"),
        JVal.jstr (cs "Ativa a dor da estagnação disfarçada de progresso")),
        ((cs "momento_instalacao"),
        JVal.jstr (cs "Início da apresentação, ao falar sobre rotina atual")),
        ((cs "roteiro_ativacao"),
        JVal.jobj [
          ((cs "pergunta_abertura"),
          JVal.jstr (cs "Você se sente um hamster numa roda de ouro?")),
          ((cs "historia_analogia"),
          JVal.jstr (cs "É como ter um Ferrari preso no trânsito - todo esse potencial, mas você não sai do lugar")),
          ((cs "metafora_visual"),
          JVal.jstr (cs "Imagine acordar sabendo que seu negócio trabalhou a noite toda sem você")),
          ((cs "comando_acao"),
          JVal.jstr (cs "Pare de girar a roda. Comece a construir alavancas."))]),
        ((cs "frases_ancoragem"),
        JVal.jarr [
          JVal.jstr (cs "Hamster dourado não é sucesso, é escravidão sofisticada"),
          JVal.jstr (cs "Sua roda está girando, mas você não está saindo do lugar"),
          JVal.jstr (cs "Trabalho duro sem sistema é só teatro de produtividade")]),
        ((cs "prova_logica"),
        JVal.jobj [
          ((cs "estatistica"),
          JVal.jstr (cs "80% dos empreendedores trabalham mais de 60h/semana")),
          ((cs "caso_exemplo"),
          JVal.jstr (cs "João faturava R$ 50k mas trabalhava 80h/semana até descobrir automação")),
          ((cs "demonstracao"),
          JVal.jstr (cs "Mostrar diferença entre receita por hora trabalhada"))]),
        ((cs "loop_reforco"),
        JVal.jstr (cs "Toda vez que se sentir sobrecarregado, lembre: hamster ou empresário?"))]]),
    ((cs "provas_visuais_sugeridas"),
    JVal.jarr [
      JVal.jobj [
        ((cs "nome"),
        JVal.jstr (cs "Demonstração da Roda do Hamster")),
        ((cs "conceito_alvo"),
        JVal.jstr (cs "Mostrar que trabalho sem sistema é ineficiente")),
        ((cs "experimento"),
        JVal.jstr (cs "Usar uma roda de hamster real e mostrar movimento sem progresso")),
        ((cs "analogia"),
        JVal.jstr (cs "Como o negócio atual - muito movimento, pouco avanço")),
        ((cs "materiais"),
        JVal.jarr [
          JVal.jstr (cs "Roda de hamster"),
          JVal.jstr (cs "Cronômetro"),
          JVal.jstr (cs "Régua")]),
        ((cs "roteiro_completo"),
        JVal.jstr (cs "1. Mostrar hamster correndo 2. Medir distância = zero 3. Comparar com esteira que vai a algum lugar")),
        ((cs "variacoes"),
        JVal.jstr (cs "Online: usar animação; Presencial: roda física")),
        ((cs "gestao_riscos"),
        JVal.jstr (cs "Se não funcionar, usar metáfora verbal reforçada"))]]),
    ((cs "insights_exclusivos_ultra"),
    JVal.jarr [
      JVal.jstr ((cs "O mercado de ") ++ seg ++ (cs " está passando por uma transformação digital acelerada")),
      JVal.jstr (cs "Existe uma lacuna entre ferramentas disponíveis e conhecimento para implementá-las"),
      JVal.jstr (cs "A maior dor não é falta de informação, mas excesso de informação sem direcionamento"),
      JVal.jstr (cs "Empreendedores pagam premium por simplicidade e implementação guiada"),
      JVal.jstr (cs "O fator decisivo de compra é confiança no método + urgência da situação atual"),
      JVal.jstr (cs "Prova social de pares vale mais que depoimentos de clientes diferentes"),
      JVal.jstr (cs "A objeção real não é preço, é medo de mais uma tentativa frustrada"),
      JVal.jstr (cs "Sistemas automatizados são vistos como \x27santo graal\x27 mas poucos sabem implementar"),
      JVal.jstr (cs "A jornada de compra é longa (3-6 meses) mas a decisão é emocional e rápida"),
      JVal.jstr (cs "Conteúdo educativo gratuito é porta de entrada, mas venda acontece na demonstração prática"),
      JVal.jstr (cs "Mercado está saturado de teoria, faminto por implementação prática"),
      JVal.jstr (cs "Diferencial competitivo está na execução, não na estratégia"),
      JVal.jstr (cs "Clientes querem ser guiados passo a passo, não apenas informados"),
      JVal.jstr (cs "ROI deve ser demonstrado em semanas, não meses, para gerar confiança"),
      JVal.jstr (cs "Comunidade e networking são fatores de retenção mais importantes que o produto")])]

/-- The record built by `_generate_emergency_fallback` (source lines
773-910): fully static but for two interpolations of the segmento field
and the timestamp, which is the `now` parameter. -/
def generate_emergency_fallback (now : Str) (data : Dict) : JVal :=
  JVal.jobj [
    ((cs "avatar_ultra_detalhado"),
    JVal.jobj [
      ((cs "nome_ficticio"),
      JVal.jstr (cs "Empreendedor Ambicioso")),
      ((cs "perfil_demografico"),
      JVal.jobj [
        ((cs "idade"),
        JVal.jstr (cs "30-45 anos - faixa de maior maturidade profissional")),
        ((cs "genero"),
        JVal.jstr (cs "Misto com leve predominância masculina")),
        ((cs "renda"),
        JVal.jstr (cs "R$ 8.000 - R$ 30.000 - classe média alta")),
        ((cs "escolaridade"),
        JVal.jstr (cs "Superior completo - alta escolaridade")),
        ((cs "localizacao"),
        JVal.jstr (cs "Grandes centros urbanos brasileiros")),
        ((cs "estado_civil"),
        JVal.jstr (cs "Maioria casada ou em relacionamento sério")),
        ((cs "filhos"),
        JVal.jstr (cs "Muitos têm filhos - motivação familiar forte")),
        ((cs "profissao"),
        JVal.jstr (cs "Empreendedores e profissionais liberais"))]),
      ((cs "perfil_psicografico"),
      JVal.jobj [
        ((cs "personalidade"),
        JVal.jstr (cs "Ambiciosos, determinados, orientados a resultados, mas frequentemente ansiosos")),
        ((cs "valores"),
        JVal.jstr (cs "Liberdade, reconhecimento, segurança financeira, impacto positivo")),
        ((cs "interesses"),
        JVal.jstr (cs "Crescimento pessoal, tecnologia, investimentos, networking")),
        ((cs "estilo_vida"),
        JVal.jstr (cs "Rotina intensa, sempre conectados, buscam eficiência")),
        ((cs "comportamento_compra"),
        JVal.jstr (cs "Pesquisam muito, decidem por lógica mas compram por emoção")),
        ((cs "influenciadores"),
        JVal.jstr (cs "Outros empreendedores de sucesso, mentores reconhecidos")),
        ((cs "medos_profundos"),
        JVal.jstr (cs "Fracasso público, instabilidade financeira, estagnação")),
        ((cs "aspiracoes_secretas"),
        JVal.jstr (cs "Ser autoridade reconhecida, ter liberdade total, deixar legado"))]),
      ((cs "dores_viscerais"),
      JVal.jarr [
        JVal.jstr (cs "Trabalhar excessivamente sem ver crescimento proporcional nos resultados"),
        JVal.jstr (cs "Sentir-se sempre correndo atrás, nunca conseguindo ficar à frente da concorrência"),
        JVal.jstr (cs "Ver competidores menores crescendo mais rapidamente"),
        JVal.jstr (cs "Não conseguir se desconectar do trabalho, mesmo nos momentos de descanso"),
        JVal.jstr (cs "Viver com medo constante de que tudo pode desmoronar a qualquer momento"),
        JVal.jstr (cs "Desperdiçar potencial em tarefas operacionais em vez de estratégicas"),
        JVal.jstr (cs "Sacrificar tempo de qualidade com família por causa das demandas do negócio"),
        JVal.jstr (cs "Estar sempre no limite financeiro apesar de ter um bom faturamento"),
        JVal.jstr (cs "Não ter controle real sobre os resultados e dependências externas"),
        JVal.jstr (cs "Sentir vergonha de admitir que não sabe como crescer de forma sustentável")]),
      ((cs "desejos_secretos"),
      JVal.jarr [
        JVal.jstr (cs "Ser reconhecido como uma autoridade respeitada e influente no seu mercado"),
        JVal.jstr (cs "Ter um negócio que funcione perfeitamente sem sua presença constante"),
        JVal.jstr (cs "Ganhar dinheiro de forma passiva através de sistemas automatizados"),
        JVal.jstr (cs "Ser convidado para palestrar em grandes eventos e conferências do setor"),
        JVal.jstr (cs "Ter liberdade total de horários, localização e decisões"),
        JVal.jstr (cs "Deixar um legado significativo que impacte positivamente milhares de pessoas"),
        JVal.jstr (cs "Alcançar segurança financeira suficiente para nunca mais se preocupar com dinheiro"),
        JVal.jstr (cs "Ser visto pelos pares como alguém que realmente \x27chegou lá\x27"),
        JVal.jstr (cs "Ter recursos e conhecimento para ajudar outros a alcançarem o sucesso"),
        JVal.jstr (cs "Ter tempo e recursos para realizar sonhos pessoais que foram adiados")]),
      ((cs "objecoes_reais"),
      JVal.jarr [
        JVal.jstr (cs "Já tentei várias estratégias diferentes e nenhuma funcionou como prometido"),
        JVal.jstr (cs "Não tenho tempo suficiente para implementar mais uma nova estratégia complexa"),
        JVal.jstr (cs "Meu nicho é muito específico e diferente, essas táticas não vão funcionar para mim"),
        JVal.jstr (cs "Preciso ver resultados rápidos e concretos, não posso esperar meses para ver retorno"),
        JVal.jstr (cs "Não tenho uma equipe grande o suficiente para executar todas essas ações"),
        JVal.jstr (cs "Já invisto muito em marketing e publicidade sem ver o retorno esperado"),
        JVal.jstr (cs "Meus clientes são diferentes e mais exigentes, eles não compram por impulso"),
        JVal.jstr (cs "Não tenho conhecimento técnico suficiente para implementar sistemas complexos"),
        JVal.jstr (cs "E se eu investir mais dinheiro e não der certo? Não posso me dar ao luxo de perder mais")]),
      ((cs "jornada_emocional"),
      JVal.jobj [
        ((cs "consciencia"),
        JVal.jstr (cs "Percebe estagnação quando compara resultados com concorrentes ou quando metas não são atingidas")),
        ((cs "consideracao"),
        JVal.jstr (cs "Pesquisa intensivamente, consome muito conteúdo educativo, busca cases de sucesso similares ao seu")),
        ((cs "decisao"),
        JVal.jstr (cs "Decide baseado na combinação de confiança no método + urgência da situação + prova social convincente")),
        ((cs "pos_compra"),
        JVal.jstr (cs "Quer implementar rapidamente mas tem receio de não conseguir executar corretamente sozinho"))]),
      ((cs "linguagem_interna"),
      JVal.jobj [
        ((cs "frases_dor"),
        JVal.jarr [
          JVal.jstr (cs "Estou trabalhando muito mas parece que não saio do lugar"),
          JVal.jstr (cs "Sinto que estou desperdiçando todo o meu potencial"),
          JVal.jstr (cs "Preciso urgentemente de um sistema que realmente funcione")]),
        ((cs "frases_desejo"),
        JVal.jarr [
          JVal.jstr (cs "Quero ter um negócio que funcione sem depender de mim o tempo todo"),
          JVal.jstr (cs "Sonho em ter verdadeira liberdade financeira e de tempo"),
          JVal.jstr (cs "Quero ser reconhecido como uma autoridade respeitada no meu mercado")]),
        ((cs "metaforas_comuns"),
        JVal.jarr [
          JVal.jstr (cs "Corrida de hamster na roda"),
          JVal.jstr (cs "Apagar incêndio constantemente"),
          JVal.jstr (cs "Remar contra a maré")]),
        ((cs "vocabulario_especifico"),
        JVal.jarr [
          JVal.jstr (cs "ROI"),
          JVal.jstr (cs "conversão"),
          JVal.jstr (cs "funil de vendas"),
          JVal.jstr (cs "lead qualificado"),
          JVal.jstr (cs "ticket médio"),
          JVal.jstr (cs "LTV"),
          JVal.jstr (cs "CAC")]),
        ((cs "tom_comunicacao"),
        JVal.jstr (cs "Direto e objetivo, aprecia dados concretos e provas tangíveis"))]),
      ((cs "gatilhos_mentais_especificos"),
      JVal.jarr [
        JVal.jstr (cs "Urgência temporal bem fundamentada"),
        JVal.jstr (cs "Escassez de oportunidade real"),
        JVal.jstr (cs "Prova social de pares do mesmo nível"),
        JVal.jstr (cs "Autoridade reconhecida no mercado"),
        JVal.jstr (cs "Medo da perda de oportunidades"),
        JVal.jstr (cs "Reciprocidade e valor antecipado")]),
      ((cs "resistencias_ocultas"),
      JVal.jarr [
        JVal.jstr (cs "Medo profundo de sair da zona de conforto conhecida"),
        JVal.jstr (cs "Síndrome do impostor que questiona se merece o sucesso"),
        JVal.jstr (cs "Perfeccionismo paralisante que impede ação"),
        JVal.jstr (cs "Desconfiança em métodos que parecem \x27fáceis demais\x27")]),
      ((cs "momento_ideal_abordagem"),
      JVal.jstr (cs "Quando está frustrado com resultados atuais ou identifica clara oportunidade de crescimento"))]),
    ((cs "escopo_posicionamento"),
    JVal.jobj [
      ((cs "posicionamento_mercado"),
      JVal.jstr (cs "Solução premium para empreendedores que querem resultados rápidos e sustentáveis")),
      ((cs "proposta_valor_unica"),
      JVal.jstr (cs "Transforme seu negócio com metodologia comprovada e suporte especializado")),
      ((cs "diferenciais_competitivos"),
      JVal.jarr [
        JVal.jstr (cs "Metodologia exclusiva testada e aprovada"),
        JVal.jstr (cs "Suporte personalizado e acompanhamento contínuo"),
        JVal.jstr (cs "Resultados mensuráveis e garantidos")]),
      ((cs "mensagem_central"),
      JVal.jstr (cs "Pare de trabalhar NO negócio e comece a trabalhar PELO negócio")),
      ((cs "tom_comunicacao"),
      JVal.jstr (cs "Direto, confiante, baseado em resultados")),
      ((cs "nicho_especifico"),
      jOfPy (pyGet data (cs "segmento") (PyVal.PStr (cs "Empreendedorismo Digital")))),
      ((cs "estrategia_oceano_azul"),
      JVal.jstr (cs "Criar categoria própria focada em implementação prática")),
      ((cs "ancoragem_preco"),
      JVal.jstr (cs "Investimento que se paga em 30 dias"))]),
    ((cs "insights_exclusivos_ultra"),
    JVal.jarr [
      JVal.jstr ((cs "O mercado de ") ++ pyStr (pyGet data (cs "segmento") (PyVal.PStr (cs "empreendedorismo"))) ++ (cs " está em transformação acelerada")),
      JVal.jstr (cs "Existe lacuna entre ferramentas disponíveis e conhecimento para implementá-las"),
      JVal.jstr (cs "A maior dor não é falta de informação, mas excesso sem direcionamento"),
      JVal.jstr (cs "Empreendedores pagam premium por simplicidade e implementação guiada"),
      JVal.jstr (cs "Fator decisivo é confiança no método + urgência da situação"),
      JVal.jstr (cs "Prova social de pares vale mais que depoimentos genéricos"),
      JVal.jstr (cs "Objeção real não é preço, é medo de mais uma tentativa frustrada"),
      JVal.jstr (cs "Sistemas automatizados são \x27santo graal\x27 mas poucos sabem implementar"),
      JVal.jstr (cs "Jornada de compra é longa mas decisão é emocional e rápida"),
      JVal.jstr (cs "Conteúdo gratuito é porta de entrada, venda acontece na demonstração"),
      JVal.jstr (cs "Mercado saturado de teoria, faminto por implementação prática"),
      JVal.jstr (cs "Diferencial está na execução, não na estratégia"),
      JVal.jstr (cs "Clientes querem ser guiados passo a passo"),
      JVal.jstr (cs "ROI deve ser demonstrado em semanas para gerar confiança"),
      JVal.jstr (cs "Análise gerada em modo de emergência - execute nova análise para resultados completos")]),
    ((cs "metadata_gemini"),
    JVal.jobj [
      ((cs "generated_at"),
      JVal.jstr now),
      ((cs "model"),
      JVal.jstr (cs "emergency_fallback")),
      ((cs "version"),
      JVal.jstr (cs "2.0.0")),
      ((cs "note"),
      JVal.jstr (cs "Análise gerada em modo de emergência devido a erro na IA principal"))])]

/-- The local variables in scope inside `_extract_structured_analysis`:
`text` (and `self`, which no failing lookup touches and which no `PyVal`
can hold, so it is left out of the association list). -/
def extract_locals (text : Str) : List (Str × PyVal) :=
  [(cs "text", PyVal.PStr text)]

/-- Name resolution inside `_extract_structured_analysis`: a name is
looked up among the locals; the module globals (`os`, `logging`, `json`,
`time`, `genai`, `datetime`, `logger`, `UltraRobustGeminiClient`,
`gemini_client`) bind none of the names this function looks up beyond its
locals, so a miss is a `NameError`. -/
def lookupName (env : List (Str × PyVal)) (x : Str) : Except PyErr PyVal :=
  match env.find? (fun p => p.1 == x) with
  | some p => .ok p.2
  | none => .error (.nameError x)

/-- The attribute call `v.get(key, default)` on the value a lookup of
`data` would produce.  Unreachable: `lookupName` over `extract_locals`
always fails on `data` (see `lookupName`), so no rendering choice here
affects any reachable result; the branch mirrors `.get` on a dict that
lacks the key. -/
def pyValGet (_v : PyVal) (_k : Str) (dflt : PyVal) : PyVal := dflt

/-- Construction of the tier-(b) dict literal (source lines 614-762).  In
Python the values of the dict display are evaluated before the dict
exists; the f-string value at line 746 evaluates the name `data`, which is
bound neither in the function (locals are `self` and `text`) nor at module
level, so the construction always raises `NameError` — modelled by the
monadic lookup below.  The literal record the display would otherwise
build is `tierBRecordFields`. -/
def tierBRecord (text : Str) : Except PyErr (List (Str × JVal)) := do
  let d ← lookupName (extract_locals text) (cs "data")
  .ok (tierBRecordFields
    (pyStr (pyValGet d (cs "segmento") (PyVal.PStr (cs "empreendedorismo")))))

/-- `_extract_structured_analysis` (source lines 610-771): build the
tier-(b) record, append `raw_response = text[:2000]`, and on any raised
error fall back to `_generate_emergency_fallback({})`. -/
def extract_structured_analysis (now : Str) (text : Str) : JVal :=
  match tierBRecord text with
  | .ok fields => JVal.jobj (dictSet fields (cs "raw_response") (JVal.jstr (text.take 2000)))
  | .error _ => generate_emergency_fallback now []

/-- `_parse_ultra_detailed_response` (source lines 571-608): strip fences,
`json.loads`, merge `metadata_gemini`.  A `JSONDecodeError` is caught and
routed to `_extract_structured_analysis` — note the source reassigns
`response_text` to the stripped text first, so that is what tier (b)
receives.  A `loads` success that is not a dict makes the string-keyed
assignment raise `TypeError`, which this function does not catch. -/
def parse_ultra_detailed_response (now : Str) (response_text : Str) : Except PyErr JVal :=
  let cleaned := stripMarkdown response_text
  match jsonLoads cleaned with
  | some (JVal.jobj fields) =>
      .ok (JVal.jobj (dictSet fields (cs "metadata_gemini") (metadata_gemini now)))
  | some _ => .error .typeError
  | none => .ok (extract_structured_analysis now cleaned)

/-- `generate_ultra_detailed_analysis` (source lines 74-107): build the
prompt, run the API call (`apiResult` is the opaque round trip: raised
error, or `response.text`), raise on empty text, parse; any error raised
anywhere in the `try` block is caught and answered with the emergency
fallback built from `analysis_data`. -/
def generate_ultra_detailed_analysis (now : Str) (analysis_data : Dict)
    (search_context attachments_context : Option Str)
    (apiResult : Except PyErr Str) : JVal :=
  let attempt : Except PyErr JVal := do
    let _prompt := build_ultra_comprehensive_prompt analysis_data search_context attachments_context
    let txt ← apiResult
    if txt = [] then .error (.exception (cs "Resposta vazia do Gemini"))
    else parse_ultra_detailed_response now txt
  match attempt with
  | .ok r => r
  | .error _ => generate_emergency_fallback now analysis_data

/-- `test_connection` (source lines 61-72): true exactly when the call
succeeds and the reply contains the token OK; any raised error yields
false. -/
def test_connection (apiResult : Except PyErr Str) : Bool :=
  match apiResult with
  | .ok t => decide (cs "OK" <:+: t)
  | .error _ => false

/-! ## Client construction and module-level singleton -/

/-- The fixed generation parameters (source lines 34-39). -/
structure GenerationConfig where
  temperature : Rat
  top_p : Rat
  top_k : Nat
  max_output_tokens : Nat
deriving DecidableEq

/-- One content-safety rule (source lines 42-59). -/
structure SafetySetting where
  category : Str
  threshold : Str
deriving DecidableEq

/-- The client state established by `__init__` (source lines 21-59). -/
structure UltraRobustGeminiClient where
  api_key : Str
  modelName : Str
  generation_config : GenerationConfig
  safety_settings : List SafetySetting
deriving DecidableEq

/-- `__init__` (source lines 21-59): read `GEMINI_API_KEY` from the
environment (`none` = unset), raise `ValueError` when it is missing or
empty (Python falsiness), then configure the opaque API (modelled
non-raising, per the spec treating `genai` as an opaque dependency) and
store the constants. -/
def initUltraRobustGeminiClient (env_GEMINI_API_KEY : Option Str) :
    Except PyErr UltraRobustGeminiClient :=
  match env_GEMINI_API_KEY with
  | none => .error (.valueError (cs "GEMINI_API_KEY não configurada"))
  | some k =>
    if k = [] then .error (.valueError (cs "GEMINI_API_KEY não configurada"))
    else .ok {
      api_key := k
      modelName := cs "gemini-1.5-flash"
      generation_config := {
        temperature := (8 : Rat) / 10
        top_p := (9 : Rat) / 10
        top_k := 40
        max_output_tokens := 32768 }
      safety_settings := [
        { category := cs "HARM_CATEGORY_HARASSMENT", threshold := cs "BLOCK_MEDIUM_AND_ABOVE" },
        { category := cs "HARM_CATEGORY_HATE_SPEECH", threshold := cs "BLOCK_MEDIUM_AND_ABOVE" },
        { category := cs "HARM_CATEGORY_SEXUALLY_EXPLICIT", threshold := cs "BLOCK_MEDIUM_AND_ABOVE" },
        { category := cs "HARM_CATEGORY_DANGEROUS_CONTENT", threshold := cs "BLOCK_MEDIUM_AND_ABOVE" }] }

/-- The module-level singleton (source lines 912-918): construction in a
`try`, any raised error caught and the name bound to `None`. -/
def gemini_client (env_GEMINI_API_KEY : Option Str) : Option UltraRobustGeminiClient :=
  (initUltraRobustGeminiClient env_GEMINI_API_KEY).toOption

/-- Decidable check that no nonempty proper prefix of `p` is a suffix of
`a` (hence no occurrence of `p` in `a ++ b` can start inside `a` and
continue into `b`). -/
def noSpanLb (p a : Str) : Bool :=
  (List.range p.length).all (fun k => decide (k = 0) || ! decide (p.take k <:+ a))

/-- The search-context section header (the text of source line 143
between its surrounding newlines). -/
def searchHeader : Str := cs "## CONTEXTO DE PESQUISA PROFUNDA:"

/-- The four top-level section names of the emergency-fallback record. -/
def fallbackTopKeys : List Str :=
  [cs "avatar_ultra_detalhado", cs "escopo_posicionamento",
   cs "insights_exclusivos_ultra", cs "metadata_gemini"]

/-! ## Occurrence-counting lemmas -/

lemma countOccurAux_eq (p s : Str) (a : Nat) :
    countOccurAux p s a = a + countOccurAux p s 0 := by
  induction s generalizing a with
  | nil => simp [countOccurAux]
  | cons c t ih =>
    simp only [countOccurAux]
    rw [ih, ih (0 + _)]
    omega

lemma countOccur_nil (p : Str) : countOccur p [] = 0 := rfl

lemma countOccur_cons (p : Str) (c : Char) (t : Str) :
    countOccur p (c :: t) = (if p.isPrefixOf (c :: t) then 1 else 0) + countOccur p t := by
  simp only [countOccur, countOccurAux]
  rw [countOccurAux_eq]
  omega

lemma ifPrefixCongr {p x y : Str} (h : p <+: x ↔ p <+: y) :
    (if p.isPrefixOf x then (1 : Nat) else 0) = if p.isPrefixOf y then 1 else 0 := by
  simp only [ List.isPrefixOf_iff_prefix]
  by_cases hx : p <+: x
  · rw [if_pos hx, if_pos (h.mp hx)]
  · rw [if_neg hx, if_neg (fun hy => hx (h.mpr hy))]

lemma prefix_append_iff_of_le {p x b : Str} (h : p.length ≤ x.length) :
    p <+: x ++ b ↔ p <+: x := by
  constructor
  · intro hp
    rw [List.prefix_iff_eq_take] at hp ⊢
    rw [hp, List.take_append_eq_append_take]
    have h0 : p.length - x.length = 0 := by omega
    simp [h0]
  · intro hp
    exact hp.trans (List.prefix_append x b)

/-- Occurrences of `p` in `a ++ b` are exactly those in `a` plus those in
`b` provided no occurrence spans the junction: there is no `k` strictly
between `0` and `p.length` with `p.take k` a suffix of `a` and `p.drop k`
a prefix of `b`. -/
theorem countOccur_append (p a b : Str) (hp : p ≠ [])
    (h : ∀ k, 0 < k → k < p.length → ¬ (p.take k <:+ a ∧ p.drop k <+: b)) :
    countOccur p (a ++ b) = countOccur p a + countOccur p b := by
  induction a with
  | nil => simp [countOccur_nil]
  | cons c a' ih =>
    have ih' := ih (fun k h1 h2 hk =>
      h k h1 h2 ⟨hk.1.trans (List.suffix_cons c a'), hk.2⟩)
    rw [List.cons_append, countOccur_cons, countOccur_cons p c a', ih']
    have hiff : p <+: (c :: (a' ++ b)) ↔ p <+: (c :: a') := by
      by_cases hle : p.length ≤ (c :: a').length
      · have := prefix_append_iff_of_le (x := c :: a') (b := b) hle
        simpa using this
      · push_neg at hle
        constructor
        · intro hpre
          exfalso
          have hx : (c :: a') <:+ (c :: a') := List.suffix_refl _
          rw [List.prefix_iff_eq_take] at hpre
          have htake : p.take (c :: a').length = c :: a' := by
            conv_lhs => rw [hpre]
            rw [List.take_take, min_eq_left (le_of_lt hle)]
            have h2 : ((c :: a') ++ b).take (c :: a').length = c :: a' := List.take_left _ _
            simpa using h2
          have hdrop : p.drop (c :: a').length <+: b := by
            conv_lhs => rw [hpre]
            rw [List.drop_take]
            have hd : ((c :: (a' ++ b)) : Str).drop (c :: a').length = b := by
              have h2 := List.drop_left (c :: a') b
              simpa using h2
            rw [hd]
            exact List.take_prefix _ b
          exact h (c :: a').length (by simp) hle ⟨by rw [htake], hdrop⟩
        · intro hpre
          exact hpre.trans (by simpa using List.prefix_append (c :: a') b)
    rw [ifPrefixCongr hiff]
    omega

/-- Splitting on the left operand: the concrete no-span check `noSpanLb`
suffices. -/
theorem countOccur_append_of_left (p a b : Str) (hp : p ≠ [])
    (ha : noSpanLb p a = true) :
    countOccur p (a ++ b) = countOccur p a + countOccur p b := by
  refine countOccur_append p a b hp (fun k h1 h2 hk => ?_)
  have := (List.all_eq_true.mp ha) k (List.mem_range.mpr h2)
  simp only [Bool.or_eq_true, decide_eq_true_eq, Bool.not_eq_true', decide_eq_false_iff_not] at this
  rcases this with h0 | hns
  · omega
  · exact hns hk.1

/-- Splitting on the right operand: if `p` contains no newline and `b`
starts with one, no occurrence can span the junction. -/
theorem countOccur_append_of_nl (p a b : Str) (hp : p ≠ [])
    (hnl : '\n' ∉ p) (hb : b.head? = some '\n') :
    countOccur p (a ++ b) = countOccur p a + countOccur p b := by
  refine countOccur_append p a b hp (fun k h1 h2 hk => ?_)
  rcases hk with ⟨-, hdrop⟩
  have hne : p.drop k ≠ [] := by
    intro hnil
    have := congrArg List.length hnil
    simp at this
    omega
  rcases hd : p.drop k with - | ⟨c0, rest⟩
  · exact hne hd
  · rcases hdrop with ⟨t, ht⟩
    rw [hd] at ht
    have hc0 : c0 = '\n' := by
      have : b.head? = some c0 := by rw [← ht]; rfl
      rw [hb] at this
      exact (Option.some.inj this).symm
    apply hnl
    have hmem : c0 ∈ p.drop k := by rw [hd]; exact List.mem_cons_self c0 rest
    rw [← hc0]
    exact (List.drop_suffix k p).subset hmem

/-- Occurrence counting is superadditive under concatenation. -/
theorem countOccur_append_ge (p a b : Str) :
    countOccur p a + countOccur p b ≤ countOccur p (a ++ b) := by
  induction a with
  | nil => simp [countOccur_nil]
  | cons c a' ih =>
    rw [List.cons_append, countOccur_cons p c (a' ++ b), countOccur_cons p c a']
    have hmono : (if p.isPrefixOf (c :: a') then (1 : Nat) else 0) ≤
        (if p.isPrefixOf (c :: (a' ++ b)) then 1 else 0) := by
      by_cases hx : p.isPrefixOf (c :: a') = true
      · have hpre : p <+: (c :: a') := List.isPrefixOf_iff_prefix.mp hx
        have : p <+: (c :: (a' ++ b)) := by
          have := hpre.trans (List.prefix_append (c :: a') b)
          simpa using this
        rw [if_pos hx, if_pos ( List.isPrefixOf_iff_prefix.mpr this)]
      · rw [if_neg hx]
        omega
    omega

/-- A pattern occurring as a contiguous substring is counted at least
once. -/
theorem countOccur_pos_of_infix (p s : Str) (hp : p ≠ []) (h : p <:+: s) :
    0 < countOccur p s := by
  rcases h with ⟨u, v, huv⟩
  have h1 : countOccur p u + countOccur p (p ++ v) ≤ countOccur p (u ++ (p ++ v)) := by
    exact countOccur_append_ge p u (p ++ v)
  have h2 : 0 < countOccur p (p ++ v) := by
    rcases hpc : p with - | ⟨c, t⟩
    · exact absurd hpc hp
    · rw [← hpc]
      have hpre : p.isPrefixOf (p ++ v) = true :=
        List.isPrefixOf_iff_prefix.mpr (List.prefix_append p v)
      rcases hq : p ++ v with - | ⟨d, w⟩
      · exfalso
        have := congrArg List.length hq
        simp [hpc] at this
      · rw [countOccur_cons, ← hq, hpre]
        simp
  have heq : u ++ (p ++ v) = s := by rw [← List.append_assoc]; exact huv
  rw [← heq]
  omega

/-! ## Occurrences of the search-context header in the prompt pieces -/

lemma searchHeader_ne : searchHeader ≠ [] := by decide

lemma searchHeader_nonl : '\n' ∉ searchHeader := by decide

lemma splitNlH (a b : Str) (hb : b.head? = some '\n') :
    countOccur searchHeader (a ++ b) =
      countOccur searchHeader a + countOccur searchHeader b :=
  countOccur_append_of_nl _ a b searchHeader_ne searchHeader_nonl hb

lemma splitLitH (a b : Str) (ha : noSpanLb searchHeader a = true) :
    countOccur searchHeader (a ++ b) =
      countOccur searchHeader a + countOccur searchHeader b :=
  countOccur_append_of_left _ a b searchHeader_ne ha

lemma cT0 : countOccur searchHeader (cs promptT0s) = 0 := by decide

lemma cT1 : countOccur searchHeader (cs promptT1s) = 0 := by decide

lemma cT2 : countOccur searchHeader (cs promptT2s) = 0 := by decide

lemma cT3 : countOccur searchHeader (cs promptT3s) = 0 := by decide

lemma cT4 : countOccur searchHeader (cs promptT4s) = 0 := by decide

lemma cT5 : countOccur searchHeader (cs promptT5s) = 0 := by decide

lemma cT6 : countOccur searchHeader (cs promptT6s) = 0 := by decide

lemma cT7 : countOccur searchHeader (cs promptT7s) = 0 := by decide

lemma cT8 : countOccur searchHeader (cs promptT8s) = 0 := by decide

lemma cT9 : countOccur searchHeader (cs promptT9s) = 0 := by decide

lemma cT10 : countOccur searchHeader (cs promptT10s) = 0 := by decide

lemma cT11 : countOccur searchHeader (cs promptT11s) = 0 := by decide

lemma cT12 : countOccur searchHeader (cs promptT12s) = 0 := by decide

/-- The schema/directives tail never contains the search-context header. -/
lemma count_tail : countOccur searchHeader promptSchemaPart = 0 := by
  unfold promptSchemaPart
  rw [splitNlH (cs promptT0s), splitNlH (cs promptT1s), splitNlH (cs promptT2s),
      splitNlH (cs promptT3s), splitNlH (cs promptT4s), splitNlH (cs promptT5s),
      splitNlH (cs promptT6s), splitNlH (cs promptT7s), splitNlH (cs promptT8s),
      splitNlH (cs promptT9s), splitNlH (cs promptT10s), splitNlH (cs promptT11s)]
  · rw [cT0, cT1, cT2, cT3, cT4, cT5, cT6, cT7, cT8, cT9, cT10, cT11, cT12]
  all_goals rfl

lemma cL0 : countOccur searchHeader (cs promptL0s) = 0 := by decide

lemma cL1 : countOccur searchHeader (cs promptL1s) = 0 := by decide

lemma cL2 : countOccur searchHeader (cs promptL2s) = 0 := by decide

lemma cL3 : countOccur searchHeader (cs promptL3s) = 0 := by decide

lemma cL4 : countOccur searchHeader (cs promptL4s) = 0 := by decide

lemma cL5 : countOccur searchHeader (cs promptL5s) = 0 := by decide

lemma cL6 : countOccur searchHeader (cs promptL6s) = 0 := by decide

lemma cL7 : countOccur searchHeader (cs promptL7s) = 0 := by decide

lemma cL8 : countOccur searchHeader (cs promptL8s) = 0 := by decide

lemma cL9 : countOccur searchHeader (cs promptL9s) = 0 := by decide

/-- Counting the header across the f-string portion of the prompt: the
nine interpolated fields contribute their own counts and the fixed
segments contribute none, for any continuation `R`. -/
lemma count_core (data : Dict) (R : Str)
    (hf : ∀ f ∈ requestFields, countOccur searchHeader (fieldVal data f) = 0) :
    countOccur searchHeader
      (cs promptL0s ++ (fieldVal data "segmento" ++ (cs promptL1s ++ (fieldVal data "produto" ++ (cs promptL2s ++ (fieldVal data "publico" ++ (cs promptL3s ++ (fieldVal data "preco" ++ (cs promptL4s ++ (fieldVal data "concorrentes" ++ (cs promptL5s ++ (fieldVal data "objetivo_receita" ++ (cs promptL6s ++ (fieldVal data "orcamento_marketing" ++ (cs promptL7s ++ (fieldVal data "prazo_lancamento" ++ (cs promptL8s ++ (fieldVal data "dados_adicionais" ++ (cs promptL9s ++ R))))))))))))))))))) =
      countOccur searchHeader R := by
  have h1 := hf "segmento" (by simp [requestFields])
  have h2 := hf "produto" (by simp [requestFields])
  have h3 := hf "publico" (by simp [requestFields])
  have h4 := hf "preco" (by simp [requestFields])
  have h5 := hf "concorrentes" (by simp [requestFields])
  have h6 := hf "objetivo_receita" (by simp [requestFields])
  have h7 := hf "orcamento_marketing" (by simp [requestFields])
  have h8 := hf "prazo_lancamento" (by simp [requestFields])
  have h9 := hf "dados_adicionais" (by simp [requestFields])
  rw [splitLitH (cs promptL0s), splitNlH (fieldVal data "segmento"),
      splitLitH (cs promptL1s), splitNlH (fieldVal data "produto"),
      splitLitH (cs promptL2s), splitNlH (fieldVal data "publico"),
      splitLitH (cs promptL3s), splitNlH (fieldVal data "preco"),
      splitLitH (cs promptL4s), splitNlH (fieldVal data "concorrentes"),
      splitLitH (cs promptL5s), splitNlH (fieldVal data "objetivo_receita"),
      splitLitH (cs promptL6s), splitNlH (fieldVal data "orcamento_marketing"),
      splitLitH (cs promptL7s), splitNlH (fieldVal data "prazo_lancamento"),
      splitLitH (cs promptL8s), splitNlH (fieldVal data "dados_adicionais"),
      splitLitH (cs promptL9s)]
  · rw [h1, h2, h3, h4, h5, h6, h7, h8, h9,
        cL0, cL1, cL2, cL3, cL4, cL5, cL6, cL7, cL8, cL9]
    omega
  all_goals first
    | rfl
    | decide

lemma cSLit : countOccur searchHeader (cs "\n## CONTEXTO DE PESQUISA PROFUNDA:\n") = 1 := by decide

lemma cALit : countOccur searchHeader (cs "\n## CONTEXTO DOS ANEXOS:\n") = 0 := by decide

lemma cNl : countOccur searchHeader (cs "\n") = 0 := by decide

/-- Whatever the attachments context, the text from the attachments block
onward starts with a newline. -/
lemma attach_tail_head (ac : Option Str) :
    (attachBlock ac ++ promptSchemaPart).head? = some '\n' := by
  match ac with
  | none => rfl
  | some a =>
    by_cases hae : a = []
    · simp only [attachBlock, if_pos hae]
      rfl
    · simp only [attachBlock, if_neg hae]
      rfl

/-- The attachments block plus the tail contains the search header only if
the attachments context does. -/
lemma count_attach_tail (ac : Option Str)
    (hac : ∀ a, ac = some a → countOccur searchHeader a = 0) :
    countOccur searchHeader (attachBlock ac ++ promptSchemaPart) = 0 := by
  match ac with
  | none =>
    simp only [attachBlock, List.nil_append]
    exact count_tail
  | some a =>
    by_cases hae : a = []
    · simp only [attachBlock, if_pos hae, List.nil_append]
      exact count_tail
    · have ha0 := hac a rfl
      simp only [attachBlock, if_neg hae]
      rw [List.append_assoc, List.append_assoc]
      rw [splitLitH (cs "\n## CONTEXTO DOS ANEXOS:\n"), splitNlH a, splitLitH (cs "\n")]
      · rw [ha0, cALit, cNl, count_tail]
      · rfl
      · rfl
      · decide

/-- With the search context absent or empty, everything after the
f-string portion of the prompt contains no occurrence of the header. -/
lemma count_rest_none (sc ac : Option Str)
    (hsc : sc = none ∨ sc = some [])
    (hac : ∀ a, ac = some a → countOccur searchHeader a = 0) :
    countOccur searchHeader (searchBlock sc ++ (attachBlock ac ++ promptSchemaPart)) = 0 := by
  rcases hsc with rfl | rfl
  · simp only [searchBlock, List.nil_append]
    exact count_attach_tail ac hac
  · simp only [searchBlock, if_pos rfl, List.nil_append]
    exact count_attach_tail ac hac

/-- With a non-empty search context that does not itself contain the
header, everything after the f-string portion contains exactly one
occurrence of the header. -/
lemma count_rest_some (s : Str) (ac : Option Str) (hs : s ≠ [])
    (hs0 : countOccur searchHeader s = 0)
    (hac : ∀ a, ac = some a → countOccur searchHeader a = 0) :
    countOccur searchHeader (searchBlock (some s) ++ (attachBlock ac ++ promptSchemaPart)) = 1 := by
  simp only [searchBlock, if_neg hs]
  rw [List.append_assoc, List.append_assoc]
  rw [splitLitH (cs "\n## CONTEXTO DE PESQUISA PROFUNDA:\n"), splitNlH s, splitLitH (cs "\n")]
  · rw [hs0, cSLit, cNl, count_attach_tail ac hac]
  · decide
  · rfl
  · decide

/-! ## Fence-stripping lemmas -/

lemma pyFind_zero (p t : Str) (hp : p ≠ []) (h : p <+: t) : pyFind p t = some 0 := by
  match t with
  | [] =>
    exfalso
    exact hp (List.prefix_nil.mp h)
  | c :: r =>
    simp only [pyFind]
    rw [if_pos ( List.isPrefixOf_iff_prefix.mpr h)]

lemma pyRfind_bt (x : Str) : pyRfind (cs "```") (x ++ cs "```") = some x.length := by
  induction x with
  | nil => rfl
  | cons c x' ih =>
    rw [List.cons_append]
    simp only [pyRfind, ih]
    simp

lemma strip_cons_nl (s : Str) : pyStrip ('\n' :: (s ++ cs "\n")) = pyStrip s := by
  unfold pyStrip
  rw [List.dropWhile_cons]
  norm_num [isPyWs]
  rw [List.dropWhile_append]
  by_cases he : (s.dropWhile isPyWs).isEmpty
  · rw [if_pos he]
    have h1 : (cs "\n").dropWhile isPyWs = [] := by decide
    have h2 : s.dropWhile isPyWs = [] := by
      cases hd : s.dropWhile isPyWs
      · rfl
      · rw [hd] at he
        simp [List.isEmpty] at he
    rw [h1, h2]
  · rw [if_neg he]
    rw [List.reverse_append]
    have h3 : (cs "\n").reverse = ['\n'] := by decide
    rw [h3]
    have h4 : (['\n'] : Str) ++ (s.dropWhile isPyWs).reverse = '\n' :: (s.dropWhile isPyWs).reverse := rfl
    rw [h4, List.dropWhile_cons]
    norm_num [isPyWs]

/-- Stripping a reply of the exact fenced shape the model is told to
produce recovers the inner text (up to outer whitespace). -/
lemma stripMarkdown_wrap (s : Str) :
    stripMarkdown (cs "```json\n" ++ (s ++ cs "\n```")) = pyStrip s := by
  have hsplit1 : cs "```json\n" = cs "```json" ++ cs "\n" := by decide
  have hsplit2 : cs "\n```" = cs "\n" ++ cs "```" := by decide
  have hpre : cs "```json" <+: cs "```json\n" ++ (s ++ cs "\n```") := by
    rw [hsplit1, List.append_assoc]
    exact List.prefix_append _ _
  have hinf : cs "```json" <:+: cs "```json\n" ++ (s ++ cs "\n```") := hpre.isInfix
  have hx : cs "```json\n" ++ (s ++ cs "\n```") =
      (cs "```json\n" ++ (s ++ cs "\n")) ++ cs "```" := by
    rw [hsplit2]
    simp [List.append_assoc]
  have hfind : pyFind (cs "```json") (cs "```json\n" ++ (s ++ cs "\n```")) = some 0 :=
    pyFind_zero _ _ (by decide) hpre
  have hrfind : pyRfind (cs "```") (cs "```json\n" ++ (s ++ cs "\n```")) =
      some (cs "```json\n" ++ (s ++ cs "\n")).length := by
    rw [hx]
    exact pyRfind_bt _
  unfold stripMarkdown
  rw [if_pos hinf, hfind, hrfind]
  simp only [Option.getD_some]
  have hslice : pySlice (cs "```json\n" ++ (s ++ cs "\n```")) (0 + 7)
      (cs "```json\n" ++ (s ++ cs "\n")).length = '\n' :: (s ++ cs "\n") := by
    rw [hx]
    unfold pySlice
    rw [List.take_left]
    rw [List.drop_append_eq_append_drop]
    rw [show (cs "```json\n").drop (0 + 7) = ['\n'] from by decide]
    rw [show 0 + 7 - (cs "```json\n").length = 0 from by decide]
    rfl
  rw [hslice]
  exact strip_cons_nl s

/-! ## Dict-update lemmas -/

lemma dictSet_lookup_self (l : List (Str × JVal)) (k : Str) (v : JVal) :
    jLookup (dictSet l k v) k = some v := by
  induction l with
  | nil => simp [dictSet, jLookup]
  | cons p t ih =>
    obtain ⟨k', v'⟩ := p
    by_cases h : k' = k
    · simp [dictSet, h, jLookup]
    · simp [dictSet, h, jLookup, ih]

lemma dictSet_lookup_other (l : List (Str × JVal)) (k k' : Str) (v : JVal)
    (h : k' ≠ k) : jLookup (dictSet l k v) k' = jLookup l k' := by
  induction l with
  | nil =>
    simp [dictSet, jLookup]
    intro heq
    exact absurd heq.symm h
  | cons p t ih =>
    obtain ⟨k0, v0⟩ := p
    by_cases h0 : k0 = k
    · subst h0
      simp only [dictSet, if_pos rfl, jLookup]
      rw [if_neg (fun heq => h heq.symm), if_neg (fun heq => h heq.symm)]
    · simp [dictSet, h0, jLookup, ih]

/-- Lifting a substring occurrence over one more prepended segment. -/
lemma infix_lift {x t : Str} (seg : Str) (h : x <:+: t) : x <:+: seg ++ t :=
  h.trans (List.suffix_append seg t).isInfix

/-! ## Claims -/

/-- C3: `generate_ultra_detailed_analysis` never raises to the caller
(it is a total function of the API outcome): when the underlying API call
raises any error, and likewise when it succeeds with empty text, the
result is the emergency-fallback record built from the call's
`analysis_data`. -/
theorem C3_generate_falls_back_on_error_or_empty
    (now : Str) (analysis_data : Dict) (sc ac : Option Str) :
    (∀ e : PyErr, generate_ultra_detailed_analysis now analysis_data sc ac (.error e) =
        generate_emergency_fallback now analysis_data)
    ∧ generate_ultra_detailed_analysis now analysis_data sc ac (.ok []) =
        generate_emergency_fallback now analysis_data := by
  exact ⟨fun e => rfl, rfl⟩

/-- C4: the heuristic-extraction tier never raises (it is a total
function), and whenever an error is raised while constructing the
tier-(b) record, `_extract_structured_analysis` catches it and returns
the emergency-fallback record instead. -/
theorem C4_extract_catches_construction_error
    (now text : Str) (e : PyErr) (h : tierBRecord text = .error e) :
    extract_structured_analysis now text = generate_emergency_fallback now [] := by
  unfold extract_structured_analysis
  rw [h]

/-- Witness for C4 at a concrete input: constructing the tier-(b) record
for the text `resposta sem json` raises (the `NameError` on `data`), and
the tier answers with the emergency fallback. -/
theorem C4_witness :
    tierBRecord (cs "resposta sem json") = .error (.nameError (cs "data"))
    ∧ extract_structured_analysis (cs "2024-01-01T00:00:00") (cs "resposta sem json") =
        generate_emergency_fallback (cs "2024-01-01T00:00:00") [] :=
  ⟨rfl, C4_extract_catches_construction_error (cs "2024-01-01T00:00:00")
    (cs "resposta sem json") (.nameError (cs "data")) rfl⟩

/-- C8: `test_connection` returns true exactly when the API call
succeeds and the token OK occurs in the reply; in particular it returns
false on every raised error (which it absorbs, being total) and false
when OK is absent from a successful reply. -/
theorem C8_test_connection_iff (apiResult : Except PyErr Str) :
    test_connection apiResult = true ↔ ∃ t, apiResult = .ok t ∧ cs "OK" <:+: t := by
  match apiResult with
  | .ok t => simp [test_connection]
  | .error e => simp [test_connection]

/-- C9: construction fails with the `ValueError` for the missing
credential exactly when `GEMINI_API_KEY` is unset or empty, that
`ValueError` is the only error construction produces, and the
module-level singleton is `None` exactly in those cases (it catches the
error instead of propagating it). -/
theorem C9_construction_and_singleton (env : Option Str) :
    ((∃ e, initUltraRobustGeminiClient env = .error e) ↔ (env = none ∨ env = some []))
    ∧ (∀ e, initUltraRobustGeminiClient env = .error e →
        e = .valueError (cs "GEMINI_API_KEY não configurada"))
    ∧ (gemini_client env = none ↔ (env = none ∨ env = some [])) := by
  match env with
  | none =>
    refine ⟨⟨fun _ => Or.inl rfl, fun _ => ⟨_, rfl⟩⟩, ?_, ?_⟩
    · intro e he
      simpa [initUltraRobustGeminiClient] using he.symm
    · simp [gemini_client, initUltraRobustGeminiClient, Except.toOption]
  | some k =>
    by_cases hk : k = []
    · subst hk
      refine ⟨⟨fun _ => Or.inr rfl, fun _ => ⟨_, rfl⟩⟩, ?_, ?_⟩
      · intro e he
        simpa [initUltraRobustGeminiClient] using he.symm
      · simp [gemini_client, initUltraRobustGeminiClient, Except.toOption]
    · refine ⟨⟨?_, ?_⟩, ?_, ?_⟩
      · intro ⟨e, he⟩
        simp [initUltraRobustGeminiClient, hk] at he
      · intro h
        rcases h with h | h
        · exact absurd h (by simp)
        · exact absurd (Option.some.inj h) hk
      · intro e he
        simp [initUltraRobustGeminiClient, hk] at he
      · simp [gemini_client, initUltraRobustGeminiClient, hk, Except.toOption]

/-- Witness for C9 at concrete environments: with an empty credential the
constructor raises, and with the variable unset the singleton is left
unset. -/
theorem C9_witness :
    (∃ e, initUltraRobustGeminiClient (some []) = .error e)
    ∧ gemini_client none = none :=
  ⟨(C9_construction_and_singleton (some [])).1.mpr (Or.inr rfl),
   (C9_construction_and_singleton none).2.2.mpr (Or.inl rfl)⟩

/-- C10: when the structured-parse tier succeeds (the stripped text
decodes to a JSON object `X`), the result is exactly `X` with
`metadata_gemini` set to the fixed sub-record stamped with the current
time: every other top-level key of `X` is returned unchanged, and
`metadata_gemini` holds the fixed sub-record even if `X` supplied its own
value under that key. -/
theorem C10_parse_success_frame (now t : Str) (X : List (Str × JVal))
    (h : jsonLoads (stripMarkdown t) = some (JVal.jobj X)) :
    parse_ultra_detailed_response now t =
      .ok (JVal.jobj (dictSet X (cs "metadata_gemini") (metadata_gemini now)))
    ∧ (∀ k, k ≠ cs "metadata_gemini" →
        jLookup (dictSet X (cs "metadata_gemini") (metadata_gemini now)) k = jLookup X k)
    ∧ jLookup (dictSet X (cs "metadata_gemini") (metadata_gemini now)) (cs "metadata_gemini") =
        some (metadata_gemini now) := by
  refine ⟨?_, fun k hk => dictSet_lookup_other X _ k _ hk, dictSet_lookup_self X _ _⟩
  simp only [parse_ultra_detailed_response, h]

/-- Witness for C10 at a concrete reply whose JSON supplies its own
`metadata_gemini`: the supplied value is overwritten by the fixed
sub-record and the other key is untouched. -/
theorem C10_witness :
    jsonLoads (stripMarkdown (cs "\x7b\"a\":1,\"metadata_gemini\":2\x7d")) =
      some (JVal.jobj [(cs "a", JVal.jnum 1), (cs "metadata_gemini", JVal.jnum 2)])
    ∧ parse_ultra_detailed_response (cs "2024-01-01T00:00:00")
        (cs "\x7b\"a\":1,\"metadata_gemini\":2\x7d") =
      .ok (JVal.jobj (dictSet [(cs "a", JVal.jnum 1), (cs "metadata_gemini", JVal.jnum 2)]
        (cs "metadata_gemini") (metadata_gemini (cs "2024-01-01T00:00:00")))) :=
  ⟨rfl, (C10_parse_success_frame (cs "2024-01-01T00:00:00")
    (cs "\x7b\"a\":1,\"metadata_gemini\":2\x7d")
    [(cs "a", JVal.jnum 1), (cs "metadata_gemini", JVal.jnum 2)] rfl).1⟩

/-- C2 (code bug): on undecodable input the parser does NOT return the
tier-(b) record with its four authored sections and a `raw_response`
prefix; evaluating the code at the failing input `resposta truncada`
shows it returns the emergency-fallback record, which carries neither
`raw_response` nor `drivers_mentais_customizados` nor
`provas_visuais_sugeridas`.  (Cause: the tier-(b) f-string references the
unbound name `data`, source line 746, so its construction always raises
`NameError`.) -/
theorem C2_code_eval_on_failing_input :
    parse_ultra_detailed_response (cs "2024-01-01T00:00:00") (cs "resposta truncada") =
      .ok (generate_emergency_fallback (cs "2024-01-01T00:00:00") [])
    ∧ cs "raw_response" ∉ topKeys (generate_emergency_fallback (cs "2024-01-01T00:00:00") [])
    ∧ cs "drivers_mentais_customizados" ∉
        topKeys (generate_emergency_fallback (cs "2024-01-01T00:00:00") [])
    ∧ cs "provas_visuais_sugeridas" ∉
        topKeys (generate_emergency_fallback (cs "2024-01-01T00:00:00") []) := by
  refine ⟨rfl, by decide, by decide, by decide⟩

/-- C1 (amended): the heuristic-extraction path and the emergency-
fallback path always return records with the same four top-level section
names, because the heuristic tier in fact always answers with the
emergency record; the structured-parse path is not bound to that key
set (see the counterexample). -/
theorem C1_amended_path_key_sets (now text : Str) (data : Dict) :
    topKeys (extract_structured_analysis now text) = fallbackTopKeys
    ∧ topKeys (generate_emergency_fallback now data) = fallbackTopKeys := by
  constructor
  · rfl
  · rfl

/-- Counterexample to C1 as stated: a successful structured parse of the
reply with an empty JSON object carries only the section
`metadata_gemini`, not the section set of the fallback paths — the three
paths do not share one set of top-level section names. -/
theorem C1_counterexample :
    parse_ultra_detailed_response (cs "2024-01-01T00:00:00") (cs "\x7b\x7d") =
      .ok (JVal.jobj [(cs "metadata_gemini", metadata_gemini (cs "2024-01-01T00:00:00"))])
    ∧ topKeys (JVal.jobj [(cs "metadata_gemini", metadata_gemini (cs "2024-01-01T00:00:00"))]) ≠
        fallbackTopKeys := by
  refine ⟨rfl, by decide⟩

/-- C5: a reply that is any valid JSON object wrapped in the fenced block
the prompt requests round-trips: the parser returns exactly the decoded
object plus the merged `metadata_gemini` sub-record. -/
theorem C5_fenced_roundtrip (now s : Str) (X : List (Str × JVal))
    (h : jsonLoads (pyStrip s) = some (JVal.jobj X)) :
    parse_ultra_detailed_response now (cs "```json\n" ++ (s ++ cs "\n```")) =
      .ok (JVal.jobj (dictSet X (cs "metadata_gemini") (metadata_gemini now))) := by
  simp only [parse_ultra_detailed_response, stripMarkdown_wrap s, h]

/-- Witness for C5 at the spec's own example: the reply
`fenced {"foo":1}` parses to `{foo: 1, metadata_gemini: ...}`. -/
theorem C5_witness :
    jsonLoads (pyStrip (cs "\x7b\"foo\":1\x7d")) = some (JVal.jobj [(cs "foo", JVal.jnum 1)])
    ∧ parse_ultra_detailed_response (cs "2024-01-01T00:00:00")
        (cs "```json\n\x7b\"foo\":1\x7d\n```") =
      .ok (JVal.jobj [(cs "foo", JVal.jnum 1),
        (cs "metadata_gemini", metadata_gemini (cs "2024-01-01T00:00:00"))]) := by
  refine ⟨rfl, ?_⟩
  rw [show (cs "```json\n\x7b\"foo\":1\x7d\n```") =
      cs "```json\n" ++ ((cs "\x7b\"foo\":1\x7d") ++ cs "\n```") from by decide]
  rw [C5_fenced_roundtrip (cs "2024-01-01T00:00:00") (cs "\x7b\"foo\":1\x7d")
      [(cs "foo", JVal.jnum 1)] rfl]
  rfl

/-- C6: the prompt builder is total (never raises), and for every
`AnalysisRequest` — including one with every field absent — it returns a
non-empty string that contains the literal placeholder `Não informado`
for every absent field. -/
theorem C6_prompt_total_placeholders (data : Dict) (sc ac : Option Str) (f : String)
    (hf : f ∈ requestFields) (habs : pyLookup data (cs f) = none) :
    build_ultra_comprehensive_prompt data sc ac ≠ []
    ∧ cs "Não informado" <:+: build_ultra_comprehensive_prompt data sc ac := by
  constructor
  · unfold build_ultra_comprehensive_prompt
    exact List.append_ne_nil_of_ne_nil_left (by decide) _
  · have hval : fieldVal data f = cs "Não informado" := by
      simp [fieldVal, pyGet, habs, pyStr]
    rw [← hval]
    simp only [requestFields, List.mem_cons, List.mem_singleton,
      List.not_mem_nil, or_false] at hf
    unfold build_ultra_comprehensive_prompt
    rcases hf with rfl | rfl | rfl | rfl | rfl | rfl | rfl | rfl | rfl
    · exact infix_lift _ ((List.prefix_append _ _).isInfix)
    · exact infix_lift _ (infix_lift _ (infix_lift _ ((List.prefix_append _ _).isInfix)))
    · exact infix_lift _ (infix_lift _ (infix_lift _ (infix_lift _ (infix_lift _ ((List.prefix_append _ _).isInfix)))))
    · exact infix_lift _ (infix_lift _ (infix_lift _ (infix_lift _ (infix_lift _ (infix_lift _ (infix_lift _ ((List.prefix_append _ _).isInfix)))))))
    · exact infix_lift _ (infix_lift _ (infix_lift _ (infix_lift _ (infix_lift _ (infix_lift _ (infix_lift _ (infix_lift _ (infix_lift _ ((List.prefix_append _ _).isInfix)))))))))
    · exact infix_lift _ (infix_lift _ (infix_lift _ (infix_lift _ (infix_lift _ (infix_lift _ (infix_lift _ (infix_lift _ (infix_lift _ (infix_lift _ (infix_lift _ ((List.prefix_append _ _).isInfix)))))))))))
    · exact infix_lift _ (infix_lift _ (infix_lift _ (infix_lift _ (infix_lift _ (infix_lift _ (infix_lift _ (infix_lift _ (infix_lift _ (infix_lift _ (infix_lift _ (infix_lift _ (infix_lift _ ((List.prefix_append _ _).isInfix)))))))))))))
    · exact infix_lift _ (infix_lift _ (infix_lift _ (infix_lift _ (infix_lift _ (infix_lift _ (infix_lift _ (infix_lift _ (infix_lift _ (infix_lift _ (infix_lift _ (infix_lift _ (infix_lift _ (infix_lift _ (infix_lift _ ((List.prefix_append _ _).isInfix)))))))))))))))
    · exact infix_lift _ (infix_lift _ (infix_lift _ (infix_lift _ (infix_lift _ (infix_lift _ (infix_lift _ (infix_lift _ (infix_lift _ (infix_lift _ (infix_lift _ (infix_lift _ (infix_lift _ (infix_lift _ (infix_lift _ (infix_lift _ (infix_lift _ ((List.prefix_append _ _).isInfix)))))))))))))))))

/-- Witness for C6 at the empty request: the field preco is absent and
the built prompt is non-empty and shows the placeholder. -/
theorem C6_witness :
    pyLookup [] (cs "preco") = none
    ∧ (build_ultra_comprehensive_prompt [] none none ≠ []
       ∧ cs "Não informado" <:+: build_ultra_comprehensive_prompt [] none none) :=
  ⟨rfl, C6_prompt_total_placeholders [] none none "preco" (by simp [requestFields]) rfl⟩

/-- C7 (amended): provided the nine rendered request fields, the search
context and the attachments context do not themselves contain the
search-context header, the built prompt contains no occurrence of the
header when `searchContext` is absent or empty, and exactly one
occurrence — followed by the given text — when it is non-empty. -/
theorem C7_search_section_occurrences (data : Dict) (sc ac : Option Str)
    (hf : ∀ f ∈ requestFields, countOccur searchHeader (fieldVal data f) = 0)
    (hsc : ∀ s, sc = some s → countOccur searchHeader s = 0)
    (hac : ∀ a, ac = some a → countOccur searchHeader a = 0) :
    ((sc = none ∨ sc = some []) →
        countOccur searchHeader (build_ultra_comprehensive_prompt data sc ac) = 0)
    ∧ (∀ s, sc = some s → s ≠ [] →
        countOccur searchHeader (build_ultra_comprehensive_prompt data sc ac) = 1
        ∧ searchHeader ++ ('\n' :: s) <:+: build_ultra_comprehensive_prompt data sc ac) := by
  constructor
  · intro hsce
    unfold build_ultra_comprehensive_prompt
    rw [count_core data _ hf]
    exact count_rest_none sc ac hsce hac
  · intro s hseq hsne
    subst hseq
    constructor
    · unfold build_ultra_comprehensive_prompt
      rw [count_core data _ hf]
      exact count_rest_some s ac hsne (hsc s rfl) hac
    · have hL : cs "\n## CONTEXTO DE PESQUISA PROFUNDA:\n" =
          '\n' :: (searchHeader ++ cs "\n") := by decide
      have hnl : cs "\n" = ['\n'] := rfl
      have hstep1 : searchHeader ++ ('\n' :: s) <:+:
          searchBlock (some s) ++ (attachBlock ac ++ promptSchemaPart) := by
        refine ⟨['\n'], cs "\n" ++ (attachBlock ac ++ promptSchemaPart), ?_⟩
        simp only [searchBlock, if_neg hsne, hL, hnl,
          List.append_assoc, List.cons_append, List.singleton_append, List.nil_append]
      unfold build_ultra_comprehensive_prompt
      exact infix_lift _ (infix_lift _ (infix_lift _ (infix_lift _ (infix_lift _ (infix_lift _ (infix_lift _ (infix_lift _ (infix_lift _ (infix_lift _ (infix_lift _ (infix_lift _ (infix_lift _ (infix_lift _ (infix_lift _ (infix_lift _ (infix_lift _ (infix_lift _ (infix_lift _ (hstep1)))))))))))))))))))

/-- Witness for C7 at a concrete request: the empty request with a
concrete non-empty search context yields exactly one header occurrence,
followed by that context. -/
theorem C7_witness :
    countOccur searchHeader (build_ultra_comprehensive_prompt []
        (some (cs "dados de pesquisa profunda sobre o nicho")) none) = 1
    ∧ searchHeader ++ ('\n' :: cs "dados de pesquisa profunda sobre o nicho") <:+:
        build_ultra_comprehensive_prompt []
          (some (cs "dados de pesquisa profunda sobre o nicho")) none := by
  have hf : ∀ f ∈ requestFields, countOccur searchHeader (fieldVal [] f) = 0 := by decide
  have hsc : ∀ s, (some (cs "dados de pesquisa profunda sobre o nicho") : Option Str) = some s →
      countOccur searchHeader s = 0 := by
    intro s hs
    cases hs
    decide
  have hac : ∀ a, (none : Option Str) = some a → countOccur searchHeader a = 0 :=
    fun a ha => nomatch ha
  exact (C7_search_section_occurrences [] _ none hf hsc hac).2
    (cs "dados de pesquisa profunda sobre o nicho") rfl (by decide)

/-- Counterexample to C7 as stated (for every pair of context strings):
a search context that itself contains the header makes the prompt carry
two occurrences instead of exactly one, and with the search context
absent an attachments context containing the header still puts one
occurrence in the prompt. -/
theorem C7_counterexample :
    countOccur searchHeader (build_ultra_comprehensive_prompt []
        (some searchHeader) none) = 2
    ∧ countOccur searchHeader (build_ultra_comprehensive_prompt []
        none (some searchHeader)) = 1 := by
  have hf : ∀ f ∈ requestFields, countOccur searchHeader (fieldVal [] f) = 0 := by decide
  have hacnone : ∀ a, (none : Option Str) = some a → countOccur searchHeader a = 0 :=
    fun a ha => nomatch ha
  constructor
  · unfold build_ultra_comprehensive_prompt
    rw [count_core [] _ hf]
    simp only [searchBlock, if_neg searchHeader_ne]
    rw [List.append_assoc, List.append_assoc]
    rw [splitLitH (cs "\n## CONTEXTO DE PESQUISA PROFUNDA:\n"), splitNlH searchHeader,
        splitLitH (cs "\n")]
    · rw [cSLit, cNl, count_attach_tail none hacnone,
          show countOccur searchHeader searchHeader = 1 from by decide]
    · decide
    · rfl
    · decide
  · unfold build_ultra_comprehensive_prompt
    rw [count_core [] _ hf]
    simp only [searchBlock, List.nil_append, attachBlock, if_neg searchHeader_ne]
    rw [List.append_assoc, List.append_assoc]
    rw [splitLitH (cs "\n## CONTEXTO DOS ANEXOS:\n"), splitNlH searchHeader,
        splitLitH (cs "\n")]
    · rw [cALit, cNl, count_tail,
          show countOccur searchHeader searchHeader = 1 from by decide]
    · decide
    · rfl
    · decide

/-- Witness for C3 at a concrete call: an API error and an empty reply
both produce the emergency fallback. -/
theorem C3_witness :
    generate_ultra_detailed_analysis (cs "2024-01-01T00:00:00") [] none none
        (.error .apiError) =
      generate_emergency_fallback (cs "2024-01-01T00:00:00") []
    ∧ generate_ultra_detailed_analysis (cs "2024-01-01T00:00:00") [] none none (.ok []) =
      generate_emergency_fallback (cs "2024-01-01T00:00:00") [] :=
  ⟨(C3_generate_falls_back_on_error_or_empty (cs "2024-01-01T00:00:00") [] none none).1 .apiError,
   (C3_generate_falls_back_on_error_or_empty (cs "2024-01-01T00:00:00") [] none none).2⟩

/-- Witness for C8 at a concrete reply containing OK. -/
theorem C8_witness : test_connection (Except.ok (cs "resposta OK")) = true :=
  (C8_test_connection_iff (Except.ok (cs "resposta OK"))).mpr
    ⟨cs "resposta OK", rfl, by decide⟩
